import Mathlib

/-!
# Git-Leet-Sync: the sync service, the page monitor and the popup

A shallow embedding of `src/background.js` (class `GitHubSyncService`: the
path derivation, the content preparation, the two remote calls, their
composition `syncSolution`, `initializeSettings`, `validateToken` and the
message listener), of `src/contentScript.js` (class `LeetCodeMonitor`: the
extraction from the page, `checkCurrentSubmission`, `handleManualSync` and
`syncToGitHub`) and of the token check and the two handlers of
`src/popup.js`.

Conventions of the embedding:

* JavaScript strings are Lean strings, and `length` is the number of UTF-16
  code units (`jsLength`). The case mappings are those of the ASCII range. A
  value that may be missing (`undefined` or `null`) is an `Option String`; such
  a value is *truthy* when it is present and not the empty string.
* A thrown `Error` is the `Except.error` of its `message`.
* `fetch` is a function from the request to the response the remote answers
  with; every function that calls `fetch` also returns the list of requests it
  issued, in order. A response has a status and what `response.json()` settles
  to: a parsed value, `null`, or the `SyntaxError` of a body that is not JSON.
* Built-ins whose result depends on the browser (URI escaping, base64, the
  locale date format, the clock) are fields of `Host`.
* The document is a `Page`: the results of the queries the monitor makes.
  The `className` of an element is a string, or the object of an SVG element.
* A method that changes fields and acts on the outside returns the new fields
  and the list of what it did, in order; a call scheduled with `setTimeout` is
  an entry of that list.
-/

namespace GitLeetSync

/-! ## Built-ins of the language -/

/-- `String.prototype.toLowerCase`, on the ASCII range: `A` to `Z` go to `a` to
`z`. A character outside ASCII is left as it is here, where the built-in
applies the Unicode case mapping of the engine; the two agree on every string
of ASCII characters. -/
def toLowerCase (s : String) : String := ⟨s.data.map Char.toLower⟩

/-- `String.prototype.toUpperCase`, on the ASCII range: `a` to `z` go to `A` to
`Z`. The built-in agrees on every string of ASCII characters. -/
def toUpperCase (s : String) : String := ⟨s.data.map Char.toUpper⟩

/-- `String.prototype.charAt`: the one-character string at index `i`, or the
empty string when `i` is past the end. The index counts characters; the
built-in counts UTF-16 code units, and agrees when the characters up to index
`i` are of the Basic Multilingual Plane. -/
def charAt (s : String) (i : Nat) : String :=
  match s.data.get? i with
  | some c => ⟨[c]⟩
  | none => ""

/-- The property `length` of a string: the number of its UTF-16 code units,
one for a character of the Basic Multilingual Plane and two for any other. -/
def jsLength (s : String) : Nat :=
  s.data.foldr (fun c n => (if c.toNat < 0x10000 then 1 else 2) + n) 0

/-- `String.prototype.includes`: `t` occurs in `s` as a contiguous run. -/
def includes (s t : String) : Prop := t.data <:+: s.data

/-- `String.prototype.startsWith`. -/
def startsWith (s t : String) : Prop := t.data <+: s.data

/-- `String.prototype.endsWith`. -/
def endsWith (s t : String) : Prop := t.data <:+ s.data

/-- Truthiness of a string that may be missing: present and non-empty. -/
def truthy : Option String → Bool
  | some s => s != ""
  | none => false

/-- The values a property read on the `extensions` object literal can give. -/
inductive JSValue where
  | undefined
  | string (s : String)
  | nativeFunction (name : String)
  | plainObject
  deriving DecidableEq, Repr

/-- Truthiness of a value: `undefined` and the empty string are falsy. -/
def JSValue.truthy : JSValue → Bool
  | .undefined => false
  | .string s => s != ""
  | .nativeFunction _ => true
  | .plainObject => true

/-- The operator `a || b`. -/
def JSValue.or (a b : JSValue) : JSValue := if a.truthy then a else b

/-- The string a value becomes inside a template literal. -/
def JSValue.toStr : JSValue → String
  | .undefined => "undefined"
  | .string s => s
  | .nativeFunction name => "function " ++ name ++ "() \x7b [native code] \x7d"
  | .plainObject => "[object Object]"

/-- The names of the methods every object inherits from `Object.prototype`
(apart from `constructor` and the accessor `__proto__`). -/
def objectPrototypeMethods : List String :=
  ["__defineGetter__", "__defineSetter__", "hasOwnProperty", "__lookupGetter__",
   "__lookupSetter__", "isPrototypeOf", "propertyIsEnumerable", "toString",
   "valueOf", "toLocaleString"]

/-- A property read that reaches `Object.prototype`: `constructor` is the
function `Object`, `__proto__` is the prototype of the receiver (for an object
literal, `Object.prototype` itself), the inherited methods are functions, and
any other key is `undefined`. -/
def objectPrototypeGet (key : String) : JSValue :=
  if key = "constructor" then .nativeFunction "Object"
  else if key = "__proto__" then .plainObject
  else if key ∈ objectPrototypeMethods then .nativeFunction key
  else .undefined

/-! ## Path derivation (`background.js`, lines 156-189) -/

/-- `GitHubSyncService.generateFolderPath(structure, difficulty, slug)`. -/
def generateFolderPath (struct : Option String) (difficulty slug : String) : String :=
  match struct with
  | some "difficulty" => toLowerCase difficulty
  | some "alphabetical" => toUpperCase (charAt slug 0)
  | some "topics" => "solutions"
  | _ => "solutions"

/-- The own properties of the object literal `extensions`. -/
def extensionsTable : List (String × String) :=
  [("python", "py"), ("python3", "py"), ("javascript", "js"), ("java", "java"),
   ("cpp", "cpp"), ("c++", "cpp"), ("c", "c"), ("c#", "cs"), ("go", "go"),
   ("rust", "rs"), ("typescript", "ts"), ("sql", "sql")]

/-- The property read `extensions[key]`: an own property when the table has
the key, otherwise whatever the prototype chain gives. -/
def extensions (key : String) : JSValue :=
  match extensionsTable.lookup key with
  | some ext => .string ext
  | none => objectPrototypeGet key

/-- `GitHubSyncService.generateFileName(slug, language)`. -/
def generateFileName (slug language : String) : String :=
  let ext := (extensions (toLowerCase language)).or (.string "txt")
  slug ++ "." ++ ext.toStr

/-! ## Records (`background.js`, lines 11-17 and 115, 193) -/

/-- The settings record kept under the storage key `settings`. A field that
the stored record lacks is `none`. -/
structure Settings where
  githubToken : Option String
  username : Option String
  repository : Option String
  folderStructure : Option String
  autoSync : Bool
  deriving DecidableEq, Repr

/-- The solution record a `syncSolution` message carries in `data`. -/
structure SolutionData where
  problemTitle : String
  difficulty : String
  slug : String
  language : String
  code : String
  url : String
  timestamp : Nat
  deriving DecidableEq, Repr

/-- The built-ins whose result the browser decides. -/
structure Host where
  /-- The global `encodeURIComponent`. -/
  encodeURIComponent : String → String
  /-- The composition `btoa(unescape(encodeURIComponent(s)))`: the base64 text
  of the UTF-8 bytes of `s`. -/
  base64 : String → String
  /-- The call `new Date(t).toLocaleString()`. -/
  toLocaleString : Nat → String
  /-- The call `Date.now()`: the clock, in milliseconds. -/
  now : Nat

/-! ## Requests and responses -/

/-- The HTTP method of a request. -/
inductive Method where
  | GET
  | PUT
  deriving DecidableEq, Repr

/-- The object that `createOrUpdateFile` serialises as the body of its
request; `sha = none` is a body without the `sha` property. -/
structure PutBody where
  message : String
  content : String
  sha : Option String
  deriving DecidableEq, Repr

/-- A call of `fetch`: method, URL, headers and (for a write) the body. -/
structure Request where
  method : Method
  url : String
  headers : List (String × String)
  body : Option PutBody
  deriving DecidableEq, Repr

/-- The object under the property `content` of a write answer. -/
structure ContentInfo where
  html_url : Option String
  deriving DecidableEq, Repr

/-- The property `content` of a parsed answer, as line 149 reads it: missing
(`undefined`), `null`, or a value with its `html_url`. -/
inductive ContentProperty where
  | undefined
  | null
  | object (info : ContentInfo)
  deriving DecidableEq, Repr

/-- A parsed JSON value other than `null`, with the properties the service
reads. `none` is a property that is missing or `null`: the service tests
`sha` and `message` for truthiness only. -/
structure ResponseBody where
  sha : Option String
  message : Option String
  content : ContentProperty
  /-- The property `login` of the answer to `GET /user`. -/
  login : Option String := none
  deriving DecidableEq, Repr

/-- What `response.json()` settles to. -/
inductive Json where
  /-- The body is JSON other than `null`: the promise resolves to the value. -/
  | value (data : ResponseBody)
  /-- The body is the JSON text `null`: the promise resolves to `null`. -/
  | null
  /-- The body is not JSON (an HTML error page, an empty body): the promise
  rejects with a `SyntaxError`, whose message names JSON; `before` and `after`
  are the text around that word. -/
  | invalid (before after : String)
  deriving DecidableEq, Repr

/-- A response of the remote API: the status, and what reading its body as
JSON gives. -/
structure Response where
  status : Nat
  json : Json
  deriving DecidableEq, Repr

/-- The message of the `SyntaxError` of `response.json()` on a body that is not
JSON, such as `Unexpected end of JSON input`. -/
def syntaxErrorMessage (before after : String) : String := before ++ "JSON" ++ after

/-- The message of the `TypeError` of reading `property` of `null`. -/
def nullPropertyError (property : String) : String :=
  "Cannot read properties of null (reading \x27" ++ property ++ "\x27)"

/-- `response.ok`: the status is in the range 200-299. -/
def Response.ok (r : Response) : Bool := decide (200 ≤ r.status ∧ r.status ≤ 299)

/-- The value `{ success: true, url }` that `syncSolution` returns. -/
structure SyncResult where
  success : Bool
  url : Option String
  deriving DecidableEq, Repr

/-- `this.baseURL` (line 6). -/
def baseURL : String := "https://api.github.com"

/-- The URL of the contents endpoint for `path` (lines 50 and 85). -/
def contentsURL (h : Host) (username repo path : String) : String :=
  baseURL ++ "/repos/" ++ username ++ "/" ++ repo ++ "/contents/" ++ h.encodeURIComponent path

/-- The request of the existence check (lines 50-55). -/
def getRequest (h : Host) (token username repo path : String) : Request :=
  { method := .GET
    url := contentsURL h username repo path
    headers := [("Authorization", "token " ++ token),
                ("Accept", "application/vnd.github.v3+json")]
    body := none }

/-- The request of the write (lines 76-93). -/
def putRequest (h : Host) (token username repo path content message : String)
    (sha : Option String) : Request :=
  { method := .PUT
    url := contentsURL h username repo path
    headers := [("Authorization", "token " ++ token),
                ("Accept", "application/vnd.github.v3+json"),
                ("Content-Type", "application/json")]
    body := some { message := message
                   content := h.base64 content
                   sha := if truthy sha then sha else none } }

/-! ## The service (`background.js`, lines 47-213) -/

/-- `GitHubSyncService.getFileSHA(token, username, repo, path)`: the requests
issued, and the revision id (`none` for `null` or a body without `sha`) or the
error thrown. -/
def getFileSHA (h : Host) (fetch : Request → Response) (token username repo path : String) :
    List Request × Except String (Option String) :=
  let request := getRequest h token username repo path
  let response := fetch request
  if response.status = 404 then
    ([request], .ok none)
  else if !response.ok then
    ([request], .error ("Failed to get file SHA: " ++ toString response.status))
  else
    match response.json with
    | .value data => ([request], .ok data.sha)
    | .null => ([request], .error (nullPropertyError "sha"))
    | .invalid before after => ([request], .error (syntaxErrorMessage before after))

/-- The text `errorData.message || response.status` of line 97. -/
def errorDetail (errorData : ResponseBody) (status : Nat) : String :=
  if truthy errorData.message then errorData.message.getD ""
  else toString status

/-- `GitHubSyncService.createOrUpdateFile(token, username, repo, path, content,
message, sha)`: the requests issued, and the parsed answer (`none` for `null`)
or the error thrown. On a response that is not a success the body is parsed
first (line 96), so a body that is not JSON throws the error of the parser. -/
def createOrUpdateFile (h : Host) (fetch : Request → Response)
    (token username repo path content message : String) (sha : Option String) :
    List Request × Except String (Option ResponseBody) :=
  let request := putRequest h token username repo path content message sha
  let response := fetch request
  if !response.ok then
    match response.json with
    | .value errorData =>
      ([request], .error ("GitHub API error: " ++ errorDetail errorData response.status))
    | .null => ([request], .error (nullPropertyError "message"))
    | .invalid before after => ([request], .error (syntaxErrorMessage before after))
  else
    match response.json with
    | .value data => ([request], .ok (some data))
    | .null => ([request], .ok none)
    | .invalid before after => ([request], .error (syntaxErrorMessage before after))

/-- The header comment block of `prepareFileContent` (lines 195-204). -/
def fileHeader (h : Host) (solutionData : SolutionData) (existingSHA : Option String) : String :=
  "/*\n * LeetCode Solution: " ++ solutionData.problemTitle ++
  "\n * Difficulty: " ++ solutionData.difficulty ++
  "\n * Language: " ++ solutionData.language ++
  "\n * URL: " ++ solutionData.url ++
  "\n * Date: " ++ h.toLocaleString solutionData.timestamp ++
  "\n * Solution: " ++ (if truthy existingSHA then "Updated" else "Initial") ++
  "\n */\n\n"

/-- `GitHubSyncService.prepareFileContent(solutionData, existingSHA)`. -/
def prepareFileContent (h : Host) (solutionData : SolutionData) (existingSHA : Option String) :
    String :=
  let header := fileHeader h solutionData existingSHA
  if truthy existingSHA then
    let solutionMarker := "// Solution " ++ toString h.now
    solutionData.code ++ "\n\n" ++ solutionMarker ++ "\n"
  else
    header ++ solutionData.code

/-- The path `filePath` of `syncSolution` (lines 118-120). -/
def syncFilePath (settings : Settings) (solutionData : SolutionData) : String :=
  let folderPath := generateFolderPath settings.folderStructure solutionData.difficulty
    solutionData.slug
  let fileName := generateFileName solutionData.slug solutionData.language
  folderPath ++ "/" ++ fileName

/-- The commit message of `syncSolution` (lines 135-137). -/
def commitMessage (solutionData : SolutionData) (existingSHA : Option String) : String :=
  if truthy existingSHA then "Update solution for " ++ solutionData.problemTitle
  else "Add solution for " ++ solutionData.problemTitle

/-- The part of `syncSolution` inside `try` (lines 122-149), for credentials
that passed the check. -/
def syncWith (h : Host) (fetch : Request → Response) (token username repository : String)
    (settings : Settings) (solutionData : SolutionData) :
    List Request × Except String SyncResult :=
  let filePath := syncFilePath settings solutionData
  match getFileSHA h fetch token username repository filePath with
  | (reads, .error e) => (reads, .error e)
  | (reads, .ok existingSHA) =>
    let fileContent := prepareFileContent h solutionData existingSHA
    match createOrUpdateFile h fetch token username repository filePath fileContent
        (commitMessage solutionData existingSHA) existingSHA with
    | (writes, .error e) => (reads ++ writes, .error e)
    | (writes, .ok none) => (reads ++ writes, .error (nullPropertyError "content"))
    | (writes, .ok (some result)) =>
      match result.content with
      | .undefined =>
        (reads ++ writes, .error "Cannot read properties of undefined (reading \x27html_url\x27)")
      | .null => (reads ++ writes, .error (nullPropertyError "html_url"))
      | .object content => (reads ++ writes, .ok { success := true, url := content.html_url })

/-- `GitHubSyncService.syncSolution(solutionData)`, with the content of the
storage key `settings` as `stored` (`none`: nothing stored): the requests
issued, and the result or the error thrown. -/
def syncSolution (h : Host) (fetch : Request → Response) (stored : Option Settings)
    (solutionData : SolutionData) : List Request × Except String SyncResult :=
  match stored with
  | none => ([], .error "Cannot read properties of undefined (reading \x27githubToken\x27)")
  | some settings =>
    if !truthy settings.githubToken || !truthy settings.username
        || !truthy settings.repository then
      ([], .error "GitHub credentials not configured")
    else
      syncWith h fetch (settings.githubToken.getD "") (settings.username.getD "")
        (settings.repository.getD "") settings solutionData

/-! ## Observations on a list of requests -/

/-- The `content` of the body of the last write among the requests: what the
remote file holds (in its wire form) once the requests were served. -/
def writtenContent (requests : List Request) : Option String :=
  ((requests.filterMap fun r => r.body).getLast?).map fun b => b.content

/-- The credentials check of line 111 passes. -/
def credentialsConfigured (settings : Settings) : Prop :=
  truthy settings.githubToken = true ∧ truthy settings.username = true ∧
    truthy settings.repository = true

/-- The request of the existence check that `syncSolution` issues for these
settings and this solution (lines 124-129). -/
def existenceCheck (h : Host) (settings : Settings) (solutionData : SolutionData) : Request :=
  getRequest h (settings.githubToken.getD "") (settings.username.getD "")
    (settings.repository.getD "") (syncFilePath settings solutionData)

/-- The request of the write that `syncSolution` issues once the existence
check gave `existingSHA` (lines 132-147). -/
def writeRequest (h : Host) (settings : Settings) (solutionData : SolutionData)
    (existingSHA : Option String) : Request :=
  putRequest h (settings.githubToken.getD "") (settings.username.getD "")
    (settings.repository.getD "") (syncFilePath settings solutionData)
    (prepareFileContent h solutionData existingSHA) (commitMessage solutionData existingSHA)
    existingSHA

/-- The outcome of the existence check inside `syncSolution`: the revision id
it returns, or the error it throws. -/
def existenceCheckResult (h : Host) (fetch : Request → Response) (settings : Settings)
    (solutionData : SolutionData) : Except String (Option String) :=
  (getFileSHA h fetch (settings.githubToken.getD "") (settings.username.getD "")
    (settings.repository.getD "") (syncFilePath settings solutionData)).2

/-- The bodies of the writes among the requests, in order. -/
def putBodies (requests : List Request) : List PutBody :=
  requests.filterMap fun r => r.body

/-! ## Concrete inputs -/

/-- A host whose encodings are the identity, whose date format is the decimal
number of milliseconds, and whose clock reads 1700000000000. -/
def exampleHost : Host :=
  { encodeURIComponent := id
    base64 := id
    toLocaleString := fun t => toString t
    now := 1700000000000 }

/-- Settings with credentials and the layout by difficulty. -/
def exampleSettings : Settings :=
  { githubToken := some "ghp_0123456789abcdefghij"
    username := some "octocat"
    repository := some "leetcode"
    folderStructure := some "difficulty"
    autoSync := true }

/-- The solution of the example of the specification: Two Sum, Easy, python. -/
def exampleSolution : SolutionData :=
  { problemTitle := "Two Sum"
    difficulty := "Easy"
    slug := "two-sum"
    language := "python"
    code := "pass"
    url := "https://leetcode.com/problems/two-sum/"
    timestamp := 1699999999000 }

/-- A remote that has no file: the existence check answers 404, the write 201. -/
def remoteAbsent (r : Request) : Response :=
  match r.method with
  | .GET => { status := 404
              json := .value { sha := none, message := some "Not Found", content := .undefined } }
  | .PUT => { status := 201
              json := .value
                { sha := none, message := none
                  content := .object { html_url := some "https://github.com/octocat/leetcode" } } }

/-- A remote that has the file at revision `abc123`: both calls answer 200. -/
def remotePresent (r : Request) : Response :=
  match r.method with
  | .GET => { status := 200
              json := .value { sha := some "abc123", message := none, content := .undefined } }
  | .PUT => { status := 200
              json := .value
                { sha := none, message := none
                  content := .object { html_url := some "https://github.com/octocat/leetcode" } } }

/-- A remote that has no file and rejects the write with status 422 and the
body `message: "Validation Failed"`. -/
def remoteRejecting (r : Request) : Response :=
  match r.method with
  | .GET => { status := 404
              json := .value { sha := none, message := some "Not Found", content := .undefined } }
  | .PUT => { status := 422
              json := .value
                { sha := none, message := some "Validation Failed", content := .undefined } }

/-- A remote that refuses every request with status 403 and the body
`message: "Bad credentials"`. -/
def remoteForbidden (_ : Request) : Response :=
  { status := 403
    json := .value { sha := none, message := some "Bad credentials", content := .undefined } }

/-- A remote that has no file and whose gateway answers the write with status
502 and an HTML page, which is not JSON. -/
def remoteBadGateway (r : Request) : Response :=
  match r.method with
  | .GET => { status := 404
              json := .value { sha := none, message := some "Not Found", content := .undefined } }
  | .PUT => { status := 502
              json := .invalid "Unexpected token \x27<\x27, \"<html>\r\n<h\"... is not valid " "" }

/-- A remote that answers the existence check with a success and the body
`null`, and the write with a success and the body `\x7b"content": null\x7d`. -/
def remoteNull (r : Request) : Response :=
  match r.method with
  | .GET => { status := 200, json := .null }
  | .PUT => { status := 200
              json := .value { sha := none, message := none, content := .null } }

/-! ## The page, as the monitor reads it (`contentScript.js`) -/

instance includesDecidable (s t : String) : Decidable (includes s t) :=
  inferInstanceAs (Decidable (t.data <:+: s.data))

/-- The characters that `String.prototype.trim` removes: the white space and
the line terminators of the language. -/
def isWhiteSpace (c : Char) : Bool :=
  [0x09, 0x0A, 0x0B, 0x0C, 0x0D, 0x20, 0xA0, 0x1680, 0x2028, 0x2029, 0x202F, 0x205F, 0x3000,
    0xFEFF].contains c.toNat || (0x2000 ≤ c.toNat && c.toNat ≤ 0x200A)

/-- `String.prototype.trim`. -/
def trim (s : String) : String :=
  ⟨((s.data.dropWhile isWhiteSpace).reverse.dropWhile isWhiteSpace).reverse⟩

/-- The characters of `s` with the first occurrence of `pattern` removed. -/
def removeFirst (pattern : List Char) : List Char → List Char
  | [] => []
  | c :: cs =>
    if pattern <+: c :: cs then (c :: cs).drop pattern.length
    else c :: removeFirst pattern cs

/-- `s.replace(pattern, '')` for a non-empty string `pattern`. -/
def replaceWithEmpty (s pattern : String) : String := ⟨removeFirst pattern.data s.data⟩

/-- `Array.prototype.join('\n')` on strings. -/
def joinLines (lines : List String) : String := "\n".intercalate lines

/-- The property `className` of an element: a string for an HTML element, an
`SVGAnimatedString` object, which has no method `toLowerCase`, for an SVG
element. -/
inductive ClassName where
  | string (value : String)
  | animated
  deriving DecidableEq, Repr

/-- An element, as far as the monitor reads it. -/
structure Element where
  textContent : String
  className : ClassName
  deriving DecidableEq, Repr

/-- An element matched by `.monaco-editor`: the texts of the `.view-line`
descendants of its first `.view-lines` descendant, or `none` when it has no
such descendant. -/
structure MonacoEditor where
  viewLines : Option (List String)
  deriving DecidableEq, Repr

/-- The document and the window of the page, through the reads that the
monitor makes of them. -/
structure Page where
  /-- The call `document.querySelector(selector)`. -/
  querySelector : String → Option Element
  /-- The property `document.title`. -/
  title : String
  /-- The property `document.body.textContent`. -/
  bodyText : String
  /-- The property `window.location.pathname`. -/
  pathname : String
  /-- The property `window.location.href`. -/
  href : String
  /-- The call `document.querySelectorAll('.monaco-editor')`. -/
  monacoEditors : List MonacoEditor
  /-- The `value` of each element of `document.querySelectorAll('textarea')`. -/
  textareas : List String
  /-- The `textContent` of each element of `document.querySelectorAll('pre')`. -/
  pres : List String
  /-- The value of the first model of `window.monaco`, when there is one. -/
  monacoModel : Option String

/-- The record that `extractSubmissionData` returns: the solution record and
the flag `isAccepted`. -/
structure SubmissionData extends SolutionData where
  isAccepted : Bool
  deriving DecidableEq, Repr

/-- The list `statusSelectors` (lines 165-171). -/
def statusSelectors : List String :=
  ["[data-e2e-locator=\"submission-result\"]", ".success", "[data-status=\"accepted\"]",
   ".submission-result", ".e2e-locator-submission-result"]

/-- The test of lines 179-184 on a matched status element; `none` when line
180 throws the `TypeError` of `className?.toLowerCase()` on a class name that
is not a string. -/
def indicatesAccepted (element : Element) : Option Bool :=
  let text := toLowerCase element.textContent
  match element.className with
  | .animated => none
  | .string value =>
    let className := toLowerCase value
    some (decide (includes text "accepted") || decide (includes className "success") ||
      decide (includes className "accepted"))

/-- The loop of lines 176-189 over a list of selectors: the value of
`isAccepted` after it, or `none` when the loop throws. -/
def scanStatus (page : Page) : List String → Option Bool
  | [] => some false
  | selector :: rest =>
    match page.querySelector selector with
    | some statusElement =>
      match indicatesAccepted statusElement with
      | none => none
      | some true => some true
      | some false => scanStatus page rest
    | none => scanStatus page rest

/-- `LeetCodeMonitor.extractProblemTitle()` (lines 225-248); `none` is `null`. -/
def extractProblemTitle (page : Page) : Option String :=
  let selectors := ["[data-e2e-locator=\"question-title\"]", ".question-title", "h1",
    ".css-v3d350", "[data-cy=\"question-title\"]"]
  match selectors.findSome? (fun selector =>
      match page.querySelector selector with
      | some element =>
        if trim element.textContent ≠ "" then some (trim element.textContent) else none
      | none => none) with
  | some title => some title
  | none =>
    if page.title ≠ "" ∧ includes page.title "LeetCode" then
      some (trim (replaceWithEmpty page.title " - LeetCode"))
    else none

/-- The three tests of lines 263-265 on the text of a difficulty element. -/
def difficultyOfText (text : String) : Option String :=
  if includes text "easy" then some "Easy"
  else if includes text "medium" then some "Medium"
  else if includes text "hard" then some "Hard"
  else none

/-- `LeetCodeMonitor.extractDifficulty()` (lines 251-275). -/
def extractDifficulty (page : Page) : String :=
  let selectors := ["[data-e2e-locator=\"question-difficulty\"]", ".difficulty", ".css-t42afm",
    "[data-difficulty]"]
  match selectors.findSome? (fun selector =>
      match page.querySelector selector with
      | some element => difficultyOfText (toLowerCase element.textContent)
      | none => none) with
  | some difficulty => difficulty
  | none =>
    let pageText := toLowerCase page.bodyText
    if includes pageText "difficulty: easy" then "Easy"
    else if includes pageText "difficulty: medium" then "Medium"
    else if includes pageText "difficulty: hard" then "Hard"
    else "Medium"

/-- The first match of the expression `/\/problems\/([^\/]+)/` in a list of
characters: the captured group. -/
def matchProblems : List Char → Option (List Char)
  | [] => none
  | c :: cs =>
    if "/problems/".data <+: c :: cs ∧ ((c :: cs).drop 10).takeWhile (· ≠ '/') ≠ [] then
      some (((c :: cs).drop 10).takeWhile (· ≠ '/'))
    else matchProblems cs

/-- `LeetCodeMonitor.extractProblemSlug()` (lines 278-282). -/
def extractProblemSlug (page : Page) : String :=
  match matchProblems page.pathname.data with
  | some group => ⟨group⟩
  | none => "unknown-problem"

/-- `LeetCodeMonitor.extractCode()` (lines 320-373); `none` is `null`. -/
def extractCode (page : Page) : Option String :=
  match page.monacoEditors.findSome? (fun editor =>
      match editor.viewLines with
      | some lines =>
        if lines.length > 0 then
          let code := trim (joinLines lines)
          if code ≠ "" ∧ jsLength code > 10 then some code else none
        else none
      | none => none) with
  | some code => some code
  | none =>
    match page.textareas.find? (fun value => decide (value ≠ "" ∧ jsLength value > 10)) with
    | some value => some (trim value)
    | none =>
      match page.pres.findSome? (fun text =>
          let code := trim text
          if code ≠ "" ∧ jsLength code > 10 then some code else none) with
      | some code => some code
      | none =>
        match page.monacoModel with
        | some value => if value ≠ "" then some (trim value) else none
        | none => none

/-- The list `languages` of line 297. -/
def languages : List String :=
  ["python", "javascript", "java", "cpp", "c++", "c", "c#", "go", "rust", "typescript", "sql"]

/-- The inner loop of lines 299-303 over a list of languages: the value
returned for the text of a language element, if any. -/
def languageOfText (text : String) : List String → Option String
  | [] => none
  | lang :: rest =>
    if includes text lang then some (if lang = "c++" then "cpp" else lang)
    else languageOfText text rest

/-- `LeetCodeMonitor.extractLanguage()` (lines 285-317). -/
def extractLanguage (page : Page) : String :=
  let selectors := ["[data-e2e-locator=\"editor-language\"]", ".editor-language",
    ".language-selector", ".cm-editor"]
  match selectors.findSome? (fun selector =>
      match page.querySelector selector with
      | some element => languageOfText (toLowerCase element.textContent) languages
      | none => none) with
  | some lang => lang
  | none =>
    match extractCode page with
    | some code =>
      if code = "" then "python"
      else if includes code "def " ∧ includes code ":" then "python"
      else if includes code "function " ∨ includes code "const " then "javascript"
      else if includes code "public class" then "java"
      else if includes code "#include" then "cpp"
      else "python"
    | none => "python"

/-- `LeetCodeMonitor.extractSubmissionData()` (lines 162-222); `none` is
`null`, returned also from the `catch` of line 218 when the status loop
throws. -/
def extractSubmissionData (h : Host) (page : Page) : Option SubmissionData :=
  match scanStatus page statusSelectors with
  | some true =>
    let problemTitle := extractProblemTitle page
    let difficulty := extractDifficulty page
    let slug := extractProblemSlug page
    let language := extractLanguage page
    let code := extractCode page
    match problemTitle, code with
    | some problemTitle, some code =>
      if problemTitle = "" ∨ language = "" ∨ code = "" then none
      else
        some { problemTitle := problemTitle
               difficulty := difficulty
               slug := slug
               language := language
               code := code
               url := page.href
               timestamp := h.now
               isAccepted := true }
    | _, _ => none
  | _ => none

/-- `LeetCodeMonitor.generateSubmissionId(submissionData)` (lines 376-378). -/
def generateSubmissionId (submissionData : SubmissionData) : String :=
  submissionData.slug ++ "-" ++ submissionData.language

/-! ## Messages between the scripts and the background service -/

/-- A request passed to `chrome.runtime.sendMessage`; a property that the
request lacks is `none`. -/
structure Message where
  action : Option String
  token : Option String := none
  data : Option SubmissionData := none
  settings : Option Settings := none
  deriving DecidableEq, Repr

/-- A value passed to `sendResponse`; a property that it lacks is `none`. -/
structure MessageResponse where
  success : Option Bool := none
  valid : Option Bool := none
  error : Option String := none
  username : Option String := none
  data : Option SyncResult := none
  settings : Option Settings := none
  deriving DecidableEq, Repr

/-- The call `chrome.runtime.sendMessage(message)` as a script sees it: the
response (`none` for `undefined`), or the message of the error it rejects
with. -/
abbrev Channel := Message → Except String (Option MessageResponse)

/-! ## The monitor (`contentScript.js`, lines 126-159 and 380-431) -/

/-- The fields of `LeetCodeMonitor` that the checks read or write:
`lastSubmissionId` (`none` is `null`) and whether `syncButton` is set. -/
structure Monitor where
  lastSubmissionId : Option String
  syncButton : Bool
  deriving DecidableEq, Repr

/-- What a method of the monitor does besides changing its fields. -/
inductive Effect where
  /-- The call `showNotification(message, type)`. -/
  | notification (message type : String)
  /-- The call `setTimeout(() => this.syncToGitHub(submissionData), delay)`. -/
  | scheduleSync (delay : Nat) (submissionData : SubmissionData)
  /-- The call `chrome.runtime.sendMessage(message)`. -/
  | sendMessage (message : Message)
  /-- The class `sync-success` put on the sync button for two seconds. -/
  | flashSyncButton
  deriving DecidableEq, Repr

/-- `LeetCodeMonitor.checkCurrentSubmission()` (lines 127-159): the monitor
after the call, and what the call did. -/
def checkCurrentSubmission (h : Host) (page : Page) (monitor : Monitor) :
    Monitor × List Effect :=
  match extractSubmissionData h page with
  | none => (monitor, [])
  | some submissionData =>
    if !submissionData.isAccepted then (monitor, [])
    else
      let submissionId := generateSubmissionId submissionData
      if some submissionId = monitor.lastSubmissionId then (monitor, [])
      else
        ({ monitor with lastSubmissionId := some submissionId },
          [.notification "Solution Accepted! Syncing to GitHub..." "success",
           .scheduleSync 1000 submissionData])

/-- `LeetCodeMonitor.syncToGitHub(submissionData)` (lines 400-431); `runtime`
is `none` when `chrome.runtime.sendMessage` is not available. -/
def syncToGitHub (runtime : Option Channel) (monitor : Monitor)
    (submissionData : SubmissionData) : List Effect :=
  match runtime with
  | none => [.notification "Extension context not ready" "error"]
  | some sendMessage =>
    let message : Message := { action := some "syncSolution", data := some submissionData }
    match sendMessage message with
    | .error e => [.sendMessage message, .notification ("Sync failed: " ++ e) "error"]
    | .ok response =>
      if (response.bind fun r => r.success) = some true then
        [.sendMessage message, .notification "Successfully synced to GitHub!" "success"] ++
          (if monitor.syncButton then [.flashSyncButton] else [])
      else
        let error := response.bind fun r => r.error
        [.sendMessage message,
         .notification ("Sync failed: " ++
           (if truthy error then error.getD "" else "Unknown sync error")) "error"]

/-- `LeetCodeMonitor.handleManualSync()` (lines 381-397). -/
def handleManualSync (h : Host) (page : Page) (runtime : Option Channel) (monitor : Monitor) :
    Monitor × List Effect :=
  match extractSubmissionData h page with
  | none => (monitor, [.notification "No accepted solution found to sync" "warning"])
  | some submissionData =>
    (monitor, .notification "Manually syncing to GitHub..." "success" ::
      syncToGitHub runtime monitor submissionData)

/-- The monitor after `checkCurrentSubmission` ran on each page in turn, and
what the calls did, in order. -/
def checkAll (h : Host) (monitor : Monitor) : List Page → Monitor × List Effect
  | [] => (monitor, [])
  | page :: rest =>
    let step := checkCurrentSubmission h page monitor
    let later := checkAll h step.1 rest
    (later.1, step.2 ++ later.2)

/-- The submissions for which a sync was scheduled, in order. -/
def scheduledSyncs (effects : List Effect) : List SubmissionData :=
  effects.filterMap fun e =>
    match e with
    | .scheduleSync _ submissionData => some submissionData
    | _ => none

/-- The messages sent, in order. -/
def sentMessages (effects : List Effect) : List Message :=
  effects.filterMap fun e =>
    match e with
    | .sendMessage message => some message
    | _ => none

/-! ## The background listener (`background.js`, lines 9-45 and 219-259) -/

/-- The record `defaultSettings` of lines 11-17. -/
def defaultSettings : Settings :=
  { githubToken := some ""
    username := some ""
    repository := some ""
    folderStructure := some "difficulty"
    autoSync := true }

/-- `GitHubSyncService.initializeSettings()` (lines 10-23): the content of the
storage key `settings` after the call, from its content before. -/
def initializeSettings (stored : Option Settings) : Option Settings :=
  match stored with
  | none => some defaultSettings
  | some settings => some settings

/-- The request of `validateToken` (lines 28-33); a missing token is written
`undefined` by the template literal. -/
def userRequest (token : Option String) : Request :=
  { method := .GET
    url := baseURL ++ "/user"
    headers := [("Authorization", "token " ++ token.getD "undefined"),
                ("Accept", "application/vnd.github.v3+json")]
    body := none }

/-- `GitHubSyncService.validateToken(token)` (lines 26-45): the requests
issued and the value returned. -/
def validateToken (fetch : Request → Response) (token : Option String) :
    List Request × MessageResponse :=
  let response := fetch (userRequest token)
  if !response.ok then
    ([userRequest token],
      { valid := some false
        error := some ("Token validation failed: " ++ toString response.status) })
  else
    match response.json with
    | .value userData => ([userRequest token], { valid := some true, username := userData.login })
    | .null =>
      ([userRequest token], { valid := some false, error := some (nullPropertyError "login") })
    | .invalid before after =>
      ([userRequest token],
        { valid := some false, error := some (syntaxErrorMessage before after) })

/-- The message of the error that `syncSolution(undefined)` throws: the
errors of lines 109-113 come first, then the destructuring of line 115. -/
def syncSolutionUndefinedError (stored : Option Settings) : String :=
  match stored with
  | none => "Cannot read properties of undefined (reading \x27githubToken\x27)"
  | some settings =>
    if !truthy settings.githubToken || !truthy settings.username
        || !truthy settings.repository then
      "GitHub credentials not configured"
    else
      "Cannot destructure property \x27problemTitle\x27 of \x27solutionData\x27 as it is undefined."

/-- The listener of `chrome.runtime.onMessage` (lines 220-259) on one request:
the content of the storage key `settings` after it, the requests issued, and
the values passed to `sendResponse`, in order. -/
def onMessage (h : Host) (fetch : Request → Response) (stored : Option Settings)
    (request : Message) : Option Settings × List Request × List MessageResponse :=
  match request.action with
  | some "initializeSettings" => (initializeSettings stored, [], [{ success := some true }])
  | some "validateToken" =>
    let result := validateToken fetch request.token
    (stored, result.1, [result.2])
  | some "syncSolution" =>
    match request.data with
    | none =>
      (stored, [],
        [{ success := some false, error := some (syncSolutionUndefinedError stored) }])
    | some data =>
      match syncSolution h fetch stored data.toSolutionData with
      | (requests, .ok syncResult) =>
        (stored, requests, [{ success := some true, data := some syncResult }])
      | (requests, .error message) =>
        (stored, requests, [{ success := some false, error := some message }])
  | some "getSettings" => (stored, [], [{ success := some true, settings := stored }])
  | some "saveSettings" =>
    ((match request.settings with
      | some settings => some settings
      | none => stored), [], [{ success := some true }])
  | _ => (stored, [], [{ success := some false, error := some "Unknown action" }])

/-! ## The popup (`popup.js`, lines 100-240) -/

instance startsWithDecidable (s t : String) : Decidable (startsWith s t) :=
  inferInstanceAs (Decidable (t.data <+: s.data))

/-- The values of the form controls of the popup and the fields of
`PopupManager` that the handlers read or write. -/
structure Popup where
  githubToken : String
  username : String
  repository : String
  folderStructure : String
  autoSync : Bool
  isLoading : Bool
  settings : Settings
  deriving DecidableEq, Repr

/-- What a handler of the popup does besides changing its fields. -/
inductive PopupEffect where
  /-- The call `showMessage(text, type)`. -/
  | showMessage (text type : String)
  /-- The call `chrome.runtime.sendMessage(message)`. -/
  | sendMessage (message : Message)
  /-- The call `focus()` on a form control. -/
  | focus (control : String)
  /-- The buttons and the label set by `setLoading(isLoading, message)`. -/
  | setLoading (isLoading : Bool) (message : String)
  /-- The class `invalid` of a form control set to `invalid`. -/
  | toggleInvalid (control : String) (invalid : Bool)
  /-- The call `markAsChanged()`. -/
  | markAsChanged
  /-- The call `updateStatusIndicator()`. -/
  | updateStatusIndicator
  /-- The call `clearChangedState()`. -/
  | clearChangedState
  deriving DecidableEq, Repr

/-- The prefixes that `validateTokenInput` accepts (line 103). -/
def tokenPrefixes : List String := ["ghp_", "gho_", "ghu_", "ghs_", "ghr_"]

/-- The value `isValid` of line 103 for a trimmed token. -/
def tokenFormatValid (token : String) : Bool :=
  decide (jsLength token ≥ 20) && tokenPrefixes.any fun p => decide (startsWith token p)

/-- `PopupManager.validateTokenInput()` (lines 101-107): the value returned
and the class it sets. -/
def validateTokenInput (popup : Popup) : Bool × List PopupEffect :=
  let token := trim popup.githubToken
  let isValid := tokenFormatValid token
  (isValid, [.toggleInvalid "githubToken" (token != "" && !isValid)])

/-- The class `[a-zA-Z0-9]`. -/
def isAlphaNumeric (c : Char) : Bool := c.isAlphanum

/-- The test of `/^[a-zA-Z0-9]([a-zA-Z0-9-]{0,38}[a-zA-Z0-9])?$/` (line 112). -/
def usernameFormatValid (username : String) : Bool :=
  match username.data with
  | [] => false
  | [c] => isAlphaNumeric c
  | c :: rest =>
    isAlphaNumeric c && decide (rest.length ≤ 39) &&
      rest.dropLast.all (fun d => isAlphaNumeric d || d == '-') &&
      (rest.getLast?.map isAlphaNumeric).getD false

/-- `PopupManager.validateUsernameInput()` (lines 110-116). -/
def validateUsernameInput (popup : Popup) : Bool × List PopupEffect :=
  let username := trim popup.username
  let isValid := usernameFormatValid username
  (isValid, [.toggleInvalid "username" (username != "" && !isValid)])

/-- The test of `/^[a-zA-Z0-9._-]+$/` (line 121). -/
def repositoryFormatValid (repository : String) : Bool :=
  repository.data ≠ [] &&
    repository.data.all (fun c => isAlphaNumeric c || c == '.' || c == '_' || c == '-')

/-- `PopupManager.validateRepositoryInput()` (lines 119-125). -/
def validateRepositoryInput (popup : Popup) : Bool × List PopupEffect :=
  let repository := trim popup.repository
  let isValid := repositoryFormatValid repository
  (isValid, [.toggleInvalid "repository" (repository != "" && !isValid)])

/-- `PopupManager.handleValidateToken()` (lines 128-166). -/
def handleValidateToken (sendMessage : Channel) (popup : Popup) : Popup × List PopupEffect :=
  let token := trim popup.githubToken
  if token = "" then (popup, [.showMessage "Please enter a GitHub token" "warning"])
  else
    let checked := validateTokenInput popup
    if !checked.1 then (popup, checked.2 ++ [.showMessage "Invalid token format" "error"])
    else
      let message : Message := { action := some "validateToken", token := some token }
      let start := checked.2 ++ [.setLoading true "Validating token...", .sendMessage message]
      match sendMessage message with
      | .ok (some response) =>
        if response.valid = some true then
          if popup.username = "" ∧ truthy response.username = true then
            ({ popup with username := response.username.getD "", isLoading := false },
              start ++ [.showMessage "Token is valid!" "success", .markAsChanged,
                .setLoading false ""])
          else
            ({ popup with isLoading := false },
              start ++ [.showMessage "Token is valid!" "success", .setLoading false ""])
        else
          ({ popup with isLoading := false },
            start ++ [.showMessage ("Token validation failed: " ++
              response.error.getD "undefined") "error", .setLoading false ""])
      | _ =>
        ({ popup with isLoading := false },
          start ++ [.showMessage "Token validation failed" "error", .setLoading false ""])

/-- `PopupManager.handleSaveSettings()` (lines 169-240). -/
def handleSaveSettings (sendMessage : Channel) (popup : Popup) : Popup × List PopupEffect :=
  if popup.isLoading then (popup, [])
  else
    let token := trim popup.githubToken
    let username := trim popup.username
    let repository := trim popup.repository
    if token = "" then
      (popup, [.showMessage "GitHub token is required" "error", .focus "githubToken"])
    else if username = "" then
      (popup, [.showMessage "GitHub username is required" "error", .focus "username"])
    else if repository = "" then
      (popup, [.showMessage "Repository name is required" "error", .focus "repository"])
    else
      let tokenChecked := validateTokenInput popup
      if !tokenChecked.1 then
        (popup, tokenChecked.2 ++ [.showMessage "Invalid token format" "error"])
      else
        let usernameChecked := validateUsernameInput popup
        if !usernameChecked.1 then
          (popup, tokenChecked.2 ++ usernameChecked.2 ++
            [.showMessage "Invalid username format" "error"])
        else
          let repositoryChecked := validateRepositoryInput popup
          if !repositoryChecked.1 then
            (popup, tokenChecked.2 ++ usernameChecked.2 ++ repositoryChecked.2 ++
              [.showMessage "Invalid repository name format" "error"])
          else
            let newSettings : Settings :=
              { githubToken := some token
                username := some username
                repository := some repository
                folderStructure := some popup.folderStructure
                autoSync := popup.autoSync }
            let message : Message := { action := some "saveSettings", settings := some newSettings }
            let start := tokenChecked.2 ++ usernameChecked.2 ++ repositoryChecked.2 ++
              [.setLoading true "Saving settings...", .sendMessage message]
            match sendMessage message with
            | .ok (some response) =>
              if response.success = some true then
                ({ popup with settings := newSettings, isLoading := false },
                  start ++ [.showMessage "Settings saved successfully!" "success",
                    .updateStatusIndicator, .clearChangedState, .setLoading false ""])
              else
                ({ popup with isLoading := false },
                  start ++ [.showMessage ("Failed to save settings: " ++
                    (if truthy response.error then response.error.getD ""
                     else "Failed to save settings")) "error", .setLoading false ""])
            | .ok none =>
              ({ popup with isLoading := false },
                start ++ [.showMessage ("Failed to save settings: " ++
                  "Cannot read properties of undefined (reading \x27success\x27)") "error",
                  .setLoading false ""])
            | .error e =>
              ({ popup with isLoading := false },
                start ++ [.showMessage ("Failed to save settings: " ++ e) "error",
                  .setLoading false ""])

/-- The messages a handler of the popup sent, in order. -/
def popupMessages (effects : List PopupEffect) : List Message :=
  effects.filterMap fun e =>
    match e with
    | .sendMessage message => some message
    | _ => none

/-- The texts a handler of the popup showed, in order. -/
def popupTexts (effects : List PopupEffect) : List String :=
  effects.filterMap fun e =>
    match e with
    | .showMessage text _ => some text
    | _ => none

/-! ## Concrete pages and popups -/

/-- The element of the first selector of the list, in order, that matches an
element of the page. -/
def firstMatch (page : Page) (selectors : List String) : Option Element :=
  selectors.findSome? page.querySelector

/-- A problem page after an accepted run: the result element reads
`Accepted`, the language element reads `languageLabel`, and the editor holds
a short solution. -/
def acceptedPage (slug languageLabel : String) : Page :=
  { querySelector := fun selector =>
      if selector = "[data-e2e-locator=\"submission-result\"]" then
        some { textContent := "Accepted", className := .string "text-green" }
      else if selector = "[data-e2e-locator=\"question-title\"]" then
        some { textContent := "1. Two Sum", className := .string "" }
      else if selector = "[data-e2e-locator=\"editor-language\"]" then
        some { textContent := languageLabel, className := .string "" }
      else none
    title := "Two Sum - LeetCode"
    bodyText := "Difficulty: Easy"
    pathname := "/problems/" ++ slug ++ "/"
    href := "https://leetcode.com/problems/" ++ slug ++ "/"
    monacoEditors := [{ viewLines := some ["class Solution:", "    pass"] }]
    textareas := []
    pres := []
    monacoModel := none }

/-- A problem page after a rejected run that still shows an element of class
`success`: the result element reads `Wrong Answer`. -/
def rejectedPage : Page :=
  { acceptedPage "two-sum" "Python3" with
    querySelector := fun selector =>
      if selector = "[data-e2e-locator=\"submission-result\"]" then
        some { textContent := "Wrong Answer", className := .string "text-red" }
      else if selector = ".success" then
        some { textContent := "Saved", className := .string "badge success" }
      else if selector = "[data-e2e-locator=\"question-title\"]" then
        some { textContent := "1. Two Sum", className := .string "" }
      else if selector = "[data-e2e-locator=\"editor-language\"]" then
        some { textContent := "Python3", className := .string "" }
      else none }

/-- The accepted page with, in front of everything else that matches `.success`,
an SVG icon of that class, and a result element that the first selector does
not match. -/
def svgBadgePage : Page :=
  { acceptedPage "two-sum" "Python3" with
    querySelector := fun selector =>
      if selector = ".success" then
        some { textContent := "", className := .animated }
      else if selector = ".submission-result" then
        some { textContent := "Accepted", className := .string "submission-result" }
      else if selector = "[data-e2e-locator=\"question-title\"]" then
        some { textContent := "1. Two Sum", className := .string "" }
      else if selector = "[data-e2e-locator=\"editor-language\"]" then
        some { textContent := "Python3", className := .string "" }
      else none }

/-- A monitor that has synced nothing yet. -/
def freshMonitor : Monitor := { lastSubmissionId := none, syncButton := true }

/-- A channel on which the background answers every message with success. -/
def acceptingChannel : Channel := fun _ => .ok (some { success := some true })

/-- A popup with the given values of the three text controls, not loading. -/
def examplePopup (githubToken username repository : String) : Popup :=
  { githubToken := githubToken
    username := username
    repository := repository
    folderStructure := "difficulty"
    autoSync := true
    isLoading := false
    settings := defaultSettings }

/-! ## The monitor and the background service together -/

/-- The channel from a script to the listener of the background service, for
a given remote and a given content of the storage key `settings`: the response
is the value the listener passes to `sendResponse`. -/
def backgroundChannel (h : Host) (fetch : Request → Response) (stored : Option Settings) :
    Channel :=
  fun message => .ok (onMessage h fetch stored message).2.2.head?

/-- One call of `checkCurrentSubmission` followed by the call of
`syncToGitHub` that it scheduled, if any: the monitor after both, and what
both did, in order. -/
def checkAndSync (h : Host) (runtime : Option Channel) (page : Page) (monitor : Monitor) :
    Monitor × List Effect :=
  let step := checkCurrentSubmission h page monitor
  (step.1, step.2 ++ ((scheduledSyncs step.2).map (syncToGitHub runtime step.1)).flatten)

/-- The notifications shown, in order. -/
def notifications (effects : List Effect) : List String :=
  effects.filterMap fun e =>
    match e with
    | .notification message _ => some message
    | _ => none

/-! ## Lemmas on the built-ins -/

theorem toLowerCase_data (s : String) : (toLowerCase s).data = s.data.map Char.toLower := rfl

theorem char_toLower_not_upper (c : Char) :
    ¬ (65 ≤ c.toLower.toNat ∧ c.toLower.toNat ≤ 90) := by
  unfold Char.toLower
  simp only []
  split_ifs with h
  · generalize c.toNat = n at h ⊢
    obtain ⟨h1, h2⟩ := h
    interval_cases n <;> decide
  · exact h

/-- No character of a lowercased string is an ASCII capital. -/
theorem toLowerCase_no_upper (s : String) (c : Char) (hc : c ∈ (toLowerCase s).data) :
    ¬ (65 ≤ c.toNat ∧ c.toNat ≤ 90) := by
  rw [toLowerCase_data] at hc
  obtain ⟨d, _, rfl⟩ := List.mem_map.mp hc
  exact char_toLower_not_upper d

/-- A lowercased string is none of the methods inherited from `Object.prototype`:
each of their names has a capital. -/
theorem toLowerCase_not_method (s : String) : toLowerCase s ∉ objectPrototypeMethods := by
  intro hmem
  have hno := toLowerCase_no_upper s
  generalize toLowerCase s = k at hmem hno
  simp only [objectPrototypeMethods, List.mem_cons, List.mem_singleton, List.not_mem_nil,
    or_false] at hmem
  rcases hmem with rfl | rfl | rfl | rfl | rfl | rfl | rfl | rfl | rfl | rfl
  · exact hno 'G' (by decide) (by decide)
  · exact hno 'S' (by decide) (by decide)
  · exact hno 'O' (by decide) (by decide)
  · exact hno 'G' (by decide) (by decide)
  · exact hno 'S' (by decide) (by decide)
  · exact hno 'P' (by decide) (by decide)
  · exact hno 'I' (by decide) (by decide)
  · exact hno 'S' (by decide) (by decide)
  · exact hno 'O' (by decide) (by decide)
  · exact hno 'L' (by decide) (by decide)

theorem digitChar_decimal (n : Nat) (h : n < 10) :
    Nat.digitChar n ∈ ['0', '1', '2', '3', '4', '5', '6', '7', '8', '9'] := by
  interval_cases n <;> decide

theorem toDigitsCore_decimal (fuel : Nat) : ∀ (n : Nat) (ds : List Char),
    (∀ c ∈ ds, c ∈ ['0', '1', '2', '3', '4', '5', '6', '7', '8', '9']) →
    ∀ c ∈ Nat.toDigitsCore 10 fuel n ds,
      c ∈ ['0', '1', '2', '3', '4', '5', '6', '7', '8', '9'] := by
  induction fuel with
  | zero => intro n ds hds; simpa [Nat.toDigitsCore] using hds
  | succ f ih =>
    intro n ds hds
    have hd := digitChar_decimal (n % 10) (Nat.mod_lt _ (by decide))
    have hcons : ∀ c ∈ Nat.digitChar (n % 10) :: ds,
        c ∈ ['0', '1', '2', '3', '4', '5', '6', '7', '8', '9'] := by
      intro c hc
      rcases List.mem_cons.mp hc with rfl | hc
      · exact hd
      · exact hds c hc
    unfold Nat.toDigitsCore
    simp only []
    split_ifs with h0
    · exact hcons
    · exact ih _ _ hcons

/-- The decimal text of a number has decimal digits only. -/
theorem toString_decimal (n : Nat) :
    ∀ c ∈ (toString n).data, c ∈ ['0', '1', '2', '3', '4', '5', '6', '7', '8', '9'] := by
  show ∀ c ∈ (Nat.repr n).data, _
  unfold Nat.repr Nat.toDigits
  simpa [List.asString] using toDigitsCore_decimal (n + 1) n [] (by simp)

/-! ## Path derivation -/

/-- The file name for a language whose lowercased name is a key of the table:
the slug, a dot and the table entry. -/
theorem generateFileName_of_lookup (slug language ext : String)
    (hk : extensionsTable.lookup (toLowerCase language) = some ext) :
    generateFileName slug language = slug ++ "." ++ ext := by
  have hne : ext ≠ "" := by
    generalize toLowerCase language = k at hk
    intro he
    subst he
    simp only [extensionsTable, List.lookup] at hk
    repeat' split at hk
    all_goals simp at hk
  simp [generateFileName, extensions, hk, JSValue.or, JSValue.truthy, JSValue.toStr, hne]

/-- The file name for a language whose lowercased name is neither a key of the
table nor `constructor` nor `__proto__`: the slug and `.txt`. -/
theorem generateFileName_of_unknown (slug language : String)
    (hk : extensionsTable.lookup (toLowerCase language) = none)
    (hc : toLowerCase language ≠ "constructor") (hp : toLowerCase language ≠ "__proto__") :
    generateFileName slug language = slug ++ ".txt" := by
  have hm := toLowerCase_not_method language
  simp [generateFileName, extensions, hk, objectPrototypeGet, hc, hp, hm, JSValue.or,
    JSValue.truthy, JSValue.toStr, String.append_assoc]

/-- C1: with the layout `difficulty` and the language `python`, the path that
`syncSolution` computes is the lowercased difficulty, a slash, the slug and
`.py`, for every difficulty and slug. -/
theorem syncFilePath_difficulty_python (settings : Settings) (solutionData : SolutionData)
    (hs : settings.folderStructure = some "difficulty")
    (hl : solutionData.language = "python") :
    syncFilePath settings solutionData =
      toLowerCase solutionData.difficulty ++ "/" ++ solutionData.slug ++ ".py" := by
  have hf : generateFileName solutionData.slug solutionData.language =
      solutionData.slug ++ "." ++ "py" :=
    generateFileName_of_lookup _ _ _ (by rw [hl]; decide)
  simp only [syncFilePath, hs, hf, generateFolderPath]
  simp [String.append_assoc]

/-- C1, at the example of the specification: difficulty `Easy`, slug `two-sum`
and language `python` give the path `easy/two-sum.py`. -/
theorem syncFilePath_difficulty_python_witness :
    exampleSettings.folderStructure = some "difficulty" ∧
    exampleSolution.language = "python" ∧
    syncFilePath exampleSettings exampleSolution = "easy/two-sum.py" :=
  ⟨rfl, rfl, (syncFilePath_difficulty_python exampleSettings exampleSolution rfl rfl).trans
    (by decide)⟩

/-- C2: the folder depends on the layout, the difficulty and the slug only.
With the layout `difficulty` it is the same for every slug, and for a
difficulty of ASCII characters it is the difficulty with each of `A` to `Z`
replaced by the matching letter of `a` to `z` and every other character kept.
With the layout `alphabetical` it is the same for every difficulty; for a slug
whose first character is ASCII it is that one character, replaced by the
matching capital when it is one of `a` to `z`; it is empty for the empty slug
and not empty for any other. Every other layout, `topics` and a missing one
included, gives `solutions` for every difficulty and slug. -/
theorem generateFolderPath_cases (difficulty slug : String) :
    (∀ other, generateFolderPath (some "difficulty") difficulty other =
      generateFolderPath (some "difficulty") difficulty slug) ∧
    ((∀ c ∈ difficulty.data, c.toNat < 128) →
      (generateFolderPath (some "difficulty") difficulty slug).data =
        difficulty.data.map fun c =>
          if 65 ≤ c.toNat ∧ c.toNat ≤ 90 then Char.ofNat (c.toNat + 32) else c) ∧
    (∀ other, generateFolderPath (some "alphabetical") other slug =
      generateFolderPath (some "alphabetical") difficulty slug) ∧
    (∀ c rest, slug.data = c :: rest → c.toNat < 128 →
      (generateFolderPath (some "alphabetical") difficulty slug).data =
        [if 97 ≤ c.toNat ∧ c.toNat ≤ 122 then Char.ofNat (c.toNat - 32) else c]) ∧
    (slug = "" → generateFolderPath (some "alphabetical") difficulty slug = "") ∧
    (slug ≠ "" → generateFolderPath (some "alphabetical") difficulty slug ≠ "") ∧
    (∀ struct, struct ≠ some "difficulty" → struct ≠ some "alphabetical" →
      generateFolderPath struct difficulty slug = "solutions") := by
  refine ⟨fun _ => rfl, ?_, fun _ => rfl, ?_, ?_, ?_, ?_⟩
  · intro _
    show (toLowerCase difficulty).data = _
    rw [toLowerCase_data]
    apply List.map_congr_left
    intro c _
    simp only [Char.toLower, ge_iff_le]
  · intro c rest hdata _
    show (toUpperCase (charAt slug 0)).data = _
    simp only [toUpperCase, charAt, hdata, List.get?_cons_zero, List.map_cons, List.map_nil,
      Char.toUpper, ge_iff_le]
  · intro hempty
    subst hempty
    rfl
  · intro hne
    show toUpperCase (charAt slug 0) ≠ ""
    obtain ⟨data⟩ := slug
    cases data with
    | nil => exact absurd rfl hne
    | cons c cs =>
      intro hempty
      have hdata := congrArg String.data hempty
      simp [toUpperCase, charAt] at hdata
  · intro struct hd ha
    unfold generateFolderPath
    split
    · exact absurd rfl hd
    · exact absurd rfl ha
    · rfl
    · rfl

/-- C2, at the difficulty `Easy` and the slug `two-sum`: the layout
`difficulty` gives `easy`, the layout `alphabetical` gives `T`, and the layout
`topics` and a missing layout give `solutions`. -/
theorem generateFolderPath_cases_witness :
    (∀ c ∈ "Easy".data, c.toNat < 128) ∧
    generateFolderPath (some "difficulty") "Easy" "two-sum" = "easy" ∧
    "two-sum".data = 't' :: "wo-sum".data ∧
    generateFolderPath (some "alphabetical") "Easy" "two-sum" = "T" ∧
    generateFolderPath (some "alphabetical") "Easy" "" = "" ∧
    generateFolderPath (some "topics") "Easy" "two-sum" = "solutions" ∧
    generateFolderPath none "Easy" "two-sum" = "solutions" :=
  ⟨by decide,
    String.ext (((generateFolderPath_cases "Easy" "two-sum").2.1 (by decide)).trans
      (by decide)),
    rfl,
    String.ext (((generateFolderPath_cases "Easy" "two-sum").2.2.2.1 't' "wo-sum".data rfl
      (by decide)).trans (by decide)),
    (generateFolderPath_cases "Easy" "").2.2.2.2.1 rfl,
    (generateFolderPath_cases "Easy" "two-sum").2.2.2.2.2.2 (some "topics") (by decide)
      (by decide),
    (generateFolderPath_cases "Easy" "two-sum").2.2.2.2.2.2 none (by decide) (by decide)⟩

/-- C3, at the language `constructor` and at `__proto__`: neither is a key of
the table, and the file name does not end in `.txt`; the property read finds
the inherited `Object` function, or the prototype object, and the template
literal writes it out as the extension. -/
theorem generateFileName_inherited_key :
    extensionsTable.lookup (toLowerCase "constructor") = none ∧
    generateFileName "two-sum" "constructor" =
      "two-sum.function Object() \x7b [native code] \x7d" ∧
    generateFileName "two-sum" "constructor" ≠ "two-sum.txt" ∧
    extensionsTable.lookup (toLowerCase "__proto__") = none ∧
    generateFileName "two-sum" "__proto__" = "two-sum.[object Object]" := by
  decide

/-! ## The credentials check -/

theorem failedSHA_ne_notConfigured (x : String) :
    "Failed to get file SHA: " ++ x ≠ "GitHub credentials not configured" := by
  intro h
  have := congrArg (fun s => s.data.get? 0) h
  simp [String.data_append] at this

theorem apiError_ne_notConfigured (x : String) :
    "GitHub API error: " ++ x ≠ "GitHub credentials not configured" := by
  intro h
  have := congrArg (fun s => s.data.get? 7) h
  simp [String.data_append] at this

theorem syntaxError_ne_notConfigured (before after : String) :
    syntaxErrorMessage before after ≠ "GitHub credentials not configured" := by
  intro h
  have hJ : 'J' ∈ (syntaxErrorMessage before after).data := by
    simp [syntaxErrorMessage, String.data_append]
  rw [h] at hJ
  revert hJ
  decide

theorem nullProperty_ne_notConfigured (property : String) :
    nullPropertyError property ≠ "GitHub credentials not configured" := by
  intro h
  have := congrArg (fun s => s.data.get? 0) h
  simp [nullPropertyError, String.data_append] at this

theorem getFileSHA_ne_notConfigured (h : Host) (fetch : Request → Response)
    (token username repo path : String) :
    (getFileSHA h fetch token username repo path).2 ≠
      .error "GitHub credentials not configured" := by
  unfold getFileSHA
  simp only []
  split_ifs
  · intro hc
    exact Except.noConfusion hc
  · intro hc
    injection hc with hc
    exact failedSHA_ne_notConfigured _ hc
  · split
    · intro hc
      exact Except.noConfusion hc
    · intro hc
      injection hc with hc
      exact nullProperty_ne_notConfigured _ hc
    · intro hc
      injection hc with hc
      exact syntaxError_ne_notConfigured _ _ hc

theorem createOrUpdateFile_ne_notConfigured (h : Host) (fetch : Request → Response)
    (token username repo path content message : String) (sha : Option String) :
    (createOrUpdateFile h fetch token username repo path content message sha).2 ≠
      .error "GitHub credentials not configured" := by
  unfold createOrUpdateFile
  simp only []
  split_ifs
  · split
    · intro hc
      injection hc with hc
      exact apiError_ne_notConfigured _ hc
    · intro hc
      injection hc with hc
      exact nullProperty_ne_notConfigured _ hc
    · intro hc
      injection hc with hc
      exact syntaxError_ne_notConfigured _ _ hc
  · split
    · intro hc
      exact Except.noConfusion hc
    · intro hc
      exact Except.noConfusion hc
    · intro hc
      injection hc with hc
      exact syntaxError_ne_notConfigured _ _ hc

/-- No error of the remote part of `syncSolution` has the text of the
credentials error. -/
theorem syncWith_ne_notConfigured (h : Host) (fetch : Request → Response)
    (token username repository : String) (settings : Settings) (solutionData : SolutionData) :
    (syncWith h fetch token username repository settings solutionData).2 ≠
      .error "GitHub credentials not configured" := by
  unfold syncWith
  simp only []
  split
  · rename_i reads e heq
    have hne := getFileSHA_ne_notConfigured h fetch token username repository
      (syncFilePath settings solutionData)
    rw [heq] at hne
    intro hc
    injection hc with hc
    exact hne (congrArg Except.error hc)
  · split
    · rename_i reads existingSHA _ _ writes e heq
      have hne := createOrUpdateFile_ne_notConfigured h fetch token username repository
        (syncFilePath settings solutionData) (prepareFileContent h solutionData existingSHA)
        (commitMessage solutionData existingSHA) existingSHA
      rw [heq] at hne
      intro hc
      injection hc with hc
      exact hne (congrArg Except.error hc)
    · intro hc
      injection hc with hc
      exact nullProperty_ne_notConfigured _ hc
    · split
      · intro hc
        injection hc with hc
        revert hc
        decide
      · intro hc
        injection hc with hc
        exact nullProperty_ne_notConfigured _ hc
      · intro hc
        exact Except.noConfusion hc

/-- C4: for every stored settings record and every solution, `syncSolution`
fails with `GitHub credentials not configured` exactly when the token, the
user name or the repository is empty or missing, and then it issues no request
at all. -/
theorem syncSolution_credentials (h : Host) (fetch : Request → Response) (settings : Settings)
    (solutionData : SolutionData) :
    ((syncSolution h fetch (some settings) solutionData).2 =
        .error "GitHub credentials not configured" ↔ ¬ credentialsConfigured settings) ∧
    (¬ credentialsConfigured settings →
      (syncSolution h fetch (some settings) solutionData).1 = []) := by
  unfold credentialsConfigured syncSolution
  cases ht : truthy settings.githubToken <;> cases hu : truthy settings.username <;>
    cases hr : truthy settings.repository <;>
    simp [ht, hu, hr, syncWith_ne_notConfigured]

/-- C4, at settings whose user name is the empty string: the error is the
credentials error and no request is issued, whatever the remote. -/
theorem syncSolution_credentials_witness :
    ¬ credentialsConfigured { exampleSettings with username := some "" } ∧
    (syncSolution exampleHost remotePresent (some { exampleSettings with username := some "" })
      exampleSolution).2 = .error "GitHub credentials not configured" ∧
    (syncSolution exampleHost remotePresent (some { exampleSettings with username := some "" })
      exampleSolution).1 = [] :=
  have hn : ¬ credentialsConfigured { exampleSettings with username := some "" } := by
    unfold credentialsConfigured; decide
  ⟨hn,
    (syncSolution_credentials exampleHost remotePresent _ exampleSolution).1.mpr hn,
    (syncSolution_credentials exampleHost remotePresent _ exampleSolution).2 hn⟩

/-! ## The two remote calls -/

theorem getFileSHA_requests (h : Host) (fetch : Request → Response)
    (token username repo path : String) :
    (getFileSHA h fetch token username repo path).1 =
      [getRequest h token username repo path] := by
  unfold getFileSHA
  simp only []
  split_ifs
  · rfl
  · rfl
  · split <;> rfl

/-- A 404 on the existence check is no revision, and no error. -/
theorem getFileSHA_notFound (h : Host) (fetch : Request → Response)
    (token username repo path : String)
    (h404 : (fetch (getRequest h token username repo path)).status = 404) :
    (getFileSHA h fetch token username repo path).2 = .ok none := by
  unfold getFileSHA
  simp [h404]

/-- C9: for every response to the existence check, `getFileSHA` issues that
one request; it returns no revision, without error, when the status is 404,
fails with `Failed to get file SHA: ` and the status for every other status
that is not a success, and returns the `sha` of the body for a success, the
body being the value that reading it as JSON gives. A success whose body is
`null` or is not JSON makes it throw the error of reading the body. -/
theorem getFileSHA_cases (h : Host) (fetch : Request → Response)
    (token username repo path : String) :
    (getFileSHA h fetch token username repo path).1 = [getRequest h token username repo path] ∧
    ((fetch (getRequest h token username repo path)).status = 404 →
      (getFileSHA h fetch token username repo path).2 = .ok none) ∧
    ((fetch (getRequest h token username repo path)).status ≠ 404 →
      (fetch (getRequest h token username repo path)).ok = false →
      (getFileSHA h fetch token username repo path).2 =
        .error ("Failed to get file SHA: " ++
          toString (fetch (getRequest h token username repo path)).status)) ∧
    ((fetch (getRequest h token username repo path)).ok = true →
      ∀ data, (fetch (getRequest h token username repo path)).json = .value data →
      (getFileSHA h fetch token username repo path).2 = .ok data.sha) ∧
    ((fetch (getRequest h token username repo path)).ok = true →
      (fetch (getRequest h token username repo path)).json = .null →
      (getFileSHA h fetch token username repo path).2 =
        .error "Cannot read properties of null (reading \x27sha\x27)") ∧
    ((fetch (getRequest h token username repo path)).ok = true →
      ∀ before after,
        (fetch (getRequest h token username repo path)).json = .invalid before after →
      (getFileSHA h fetch token username repo path).2 =
        .error (before ++ "JSON" ++ after)) := by
  have hne : (fetch (getRequest h token username repo path)).ok = true →
      (fetch (getRequest h token username repo path)).status ≠ 404 := by
    intro hok h404
    simp [Response.ok, h404] at hok
  unfold getFileSHA
  simp only []
  refine ⟨?_, ?_, ?_, ?_, ?_, ?_⟩
  · split_ifs
    · rfl
    · rfl
    · split <;> rfl
  · intro h404
    simp [h404]
  · intro hne hok
    simp [hne, hok]
  · intro hok data hjson
    simp [hne hok, hok, hjson]
  · intro hok hjson
    simp [hne hok, hok, hjson, nullPropertyError]
  · intro hok before after hjson
    simp [hne hok, hok, hjson, syntaxErrorMessage]

/-- C9, at four remotes: status 404 gives no revision, status 200 gives the
`sha` of the body, status 403 gives the error with the status, and status 200
with the body `null` gives the error of reading `sha` of `null`. -/
theorem getFileSHA_cases_witness :
    (remoteAbsent (getRequest exampleHost "t" "u" "r" "easy/two-sum.py")).status = 404 ∧
    (getFileSHA exampleHost remoteAbsent "t" "u" "r" "easy/two-sum.py").2 = .ok none ∧
    (remotePresent (getRequest exampleHost "t" "u" "r" "easy/two-sum.py")).ok = true ∧
    (getFileSHA exampleHost remotePresent "t" "u" "r" "easy/two-sum.py").2 =
      .ok (some "abc123") ∧
    (getFileSHA exampleHost remoteForbidden "t" "u" "r" "easy/two-sum.py").2 =
      .error "Failed to get file SHA: 403" ∧
    (getFileSHA exampleHost remoteNull "t" "u" "r" "easy/two-sum.py").2 =
      .error "Cannot read properties of null (reading \x27sha\x27)" :=
  ⟨rfl,
    (getFileSHA_cases exampleHost remoteAbsent "t" "u" "r" "easy/two-sum.py").2.1 rfl,
    rfl,
    (getFileSHA_cases exampleHost remotePresent "t" "u" "r" "easy/two-sum.py").2.2.2.1 rfl
      _ rfl,
    ((getFileSHA_cases exampleHost remoteForbidden "t" "u" "r" "easy/two-sum.py").2.2.1
      (by decide) rfl).trans (congrArg Except.error (by decide)),
    (getFileSHA_cases exampleHost remoteNull "t" "u" "r" "easy/two-sum.py").2.2.2.2.1 rfl rfl⟩

theorem createOrUpdateFile_requests (h : Host) (fetch : Request → Response)
    (token username repo path content message : String) (sha : Option String) :
    (createOrUpdateFile h fetch token username repo path content message sha).1 =
      [putRequest h token username repo path content message sha] := by
  unfold createOrUpdateFile
  simp only []
  split_ifs <;> split <;> rfl

/-- The error of a refused write whose body is JSON other than `null`. -/
theorem createOrUpdateFile_error (h : Host) (fetch : Request → Response)
    (token username repo path content message : String) (sha : Option String)
    (errorData : ResponseBody)
    (hok : (fetch (putRequest h token username repo path content message sha)).ok = false)
    (hjson : (fetch (putRequest h token username repo path content message sha)).json =
      .value errorData) :
    (createOrUpdateFile h fetch token username repo path content message sha).2 =
      .error ("GitHub API error: " ++ errorDetail errorData
        (fetch (putRequest h token username repo path content message sha)).status) := by
  unfold createOrUpdateFile
  simp [hok, hjson]

/-- The error of a refused write whose body is `null`. -/
theorem createOrUpdateFile_null_error (h : Host) (fetch : Request → Response)
    (token username repo path content message : String) (sha : Option String)
    (hok : (fetch (putRequest h token username repo path content message sha)).ok = false)
    (hjson : (fetch (putRequest h token username repo path content message sha)).json = .null) :
    (createOrUpdateFile h fetch token username repo path content message sha).2 =
      .error (nullPropertyError "message") := by
  unfold createOrUpdateFile
  simp [hok, hjson]

/-- The error of a write whose answer is not JSON, whatever its status. -/
theorem createOrUpdateFile_invalid_error (h : Host) (fetch : Request → Response)
    (token username repo path content message : String) (sha : Option String)
    (before after : String)
    (hjson : (fetch (putRequest h token username repo path content message sha)).json =
      .invalid before after) :
    (createOrUpdateFile h fetch token username repo path content message sha).2 =
      .error (syntaxErrorMessage before after) := by
  unfold createOrUpdateFile
  simp only [hjson]
  split_ifs <;> rfl

/-- The requests of `syncSolution`, for credentials that pass the check and an
existence check that returns: the existence check, then one write. -/
theorem syncSolution_requests (h : Host) (fetch : Request → Response) (settings : Settings)
    (solutionData : SolutionData) (existingSHA : Option String)
    (hcfg : credentialsConfigured settings)
    (hget : existenceCheckResult h fetch settings solutionData = .ok existingSHA) :
    (syncSolution h fetch (some settings) solutionData).1 =
      [existenceCheck h settings solutionData,
       writeRequest h settings solutionData existingSHA] := by
  obtain ⟨ht, hu, hr⟩ := hcfg
  unfold existenceCheckResult at hget
  have hreads := getFileSHA_requests h fetch (settings.githubToken.getD "")
    (settings.username.getD "") (settings.repository.getD "")
    (syncFilePath settings solutionData)
  have hwrites := createOrUpdateFile_requests h fetch (settings.githubToken.getD "")
    (settings.username.getD "") (settings.repository.getD "")
    (syncFilePath settings solutionData) (prepareFileContent h solutionData existingSHA)
    (commitMessage solutionData existingSHA) existingSHA
  simp only [syncSolution, ht, hu, hr, Bool.not_true, Bool.or_self, Bool.false_eq_true,
    if_false, syncWith]
  split
  · rename_i reads e heq
    rw [heq] at hget
    exact Except.noConfusion hget
  · rename_i reads sha heq
    rw [heq] at hget hreads
    injection hget with hget
    subst hget
    simp only [] at hreads
    subst hreads
    split
    · rename_i writes e heq2
      rw [heq2] at hwrites
      simp only [] at hwrites
      subst hwrites
      rfl
    · rename_i writes heq2
      rw [heq2] at hwrites
      simp only [] at hwrites
      subst hwrites
      rfl
    · rename_i writes result heq2
      rw [heq2] at hwrites
      simp only [] at hwrites
      subst hwrites
      split <;> rfl

/-- The error of `syncSolution` when the write throws: the error of
`createOrUpdateFile`, as it is. -/
theorem syncSolution_write_error (h : Host) (fetch : Request → Response) (settings : Settings)
    (solutionData : SolutionData) (existingSHA : Option String) (e : String)
    (hcfg : credentialsConfigured settings)
    (hget : existenceCheckResult h fetch settings solutionData = .ok existingSHA)
    (hwrite : (createOrUpdateFile h fetch (settings.githubToken.getD "")
      (settings.username.getD "") (settings.repository.getD "")
      (syncFilePath settings solutionData) (prepareFileContent h solutionData existingSHA)
      (commitMessage solutionData existingSHA) existingSHA).2 = .error e) :
    (syncSolution h fetch (some settings) solutionData).2 = .error e := by
  obtain ⟨ht, hu, hr⟩ := hcfg
  unfold existenceCheckResult at hget
  simp only [syncSolution, ht, hu, hr, Bool.not_true, Bool.or_self, Bool.false_eq_true,
    if_false, syncWith]
  split
  · rename_i reads e heq
    rw [heq] at hget
    exact Except.noConfusion hget
  · rename_i reads sha heq
    rw [heq] at hget
    injection hget with hget
    subst hget
    split
    · rename_i writes e2 heq2
      rw [heq2] at hwrite
      injection hwrite with hwrite
      subst hwrite
      rfl
    · rename_i writes heq2
      rw [heq2] at hwrite
      exact Except.noConfusion hwrite
    · rename_i writes result heq2
      rw [heq2] at hwrite
      exact Except.noConfusion hwrite

theorem errorDetail_of_message (errorData : ResponseBody) (status : Nat) (m : String)
    (hm : errorData.message = some m) (hne : m ≠ "") : errorDetail errorData status = m := by
  simp [errorDetail, truthy, hm, hne]

theorem errorDetail_of_no_message (errorData : ResponseBody) (status : Nat)
    (hm : errorData.message = none ∨ errorData.message = some "") :
    errorDetail errorData status = toString status := by
  rcases hm with hm | hm <;> simp [errorDetail, truthy, hm]

/-- C10, as stated, fails at a write that a gateway answers with status 502
and an HTML page: the response is not a success and its body has no message,
yet `createOrUpdateFile` does not fail with `GitHub API error: 502`. The body
is parsed before the text is built (line 96), the parser throws, and the text
that `createOrUpdateFile` and `syncSolution` fail with is the message of the
parser, which does not start with `GitHub API error: `. -/
theorem write_failure_not_json :
    (remoteBadGateway (writeRequest exampleHost exampleSettings exampleSolution none)).ok
      = false ∧
    (remoteBadGateway (writeRequest exampleHost exampleSettings exampleSolution none)).status
      = 502 ∧
    (createOrUpdateFile exampleHost remoteBadGateway "ghp_0123456789abcdefghij" "octocat"
      "leetcode" "easy/two-sum.py" "pass" "Add solution for Two Sum" none).2 =
      .error "Unexpected token \x27<\x27, \"<html>\r\n<h\"... is not valid JSON" ∧
    (syncSolution exampleHost remoteBadGateway (some exampleSettings) exampleSolution).2 =
      .error "Unexpected token \x27<\x27, \"<html>\r\n<h\"... is not valid JSON" ∧
    (syncSolution exampleHost remoteBadGateway (some exampleSettings) exampleSolution).2 ≠
      .error "GitHub API error: 502" ∧
    ¬ startsWith "Unexpected token \x27<\x27, \"<html>\r\n<h\"... is not valid JSON"
      "GitHub API error: " := by
  refine ⟨rfl, rfl, rfl, rfl, ?_, by decide⟩
  intro hc
  have hrun : (syncSolution exampleHost remoteBadGateway (some exampleSettings)
      exampleSolution).2 =
      .error "Unexpected token \x27<\x27, \"<html>\r\n<h\"... is not valid JSON" := rfl
  rw [hrun] at hc
  injection hc with hc
  revert hc
  decide

/-- C10, amended: for every write response that is not a success and whose
body is JSON other than `null`, `createOrUpdateFile` fails with
`GitHub API error: ` followed by the message of the body when the body has a
non-empty one, and by the status otherwise. When the body is not JSON it fails
with the message of the `SyntaxError` of the parser, and when the body is
`null` with that of the `TypeError` of reading `message` of `null`. In each
case `syncSolution` fails with the same text, after the existence check and
that single write. -/
theorem createOrUpdateFile_failure (h : Host) (fetch : Request → Response) :
    (∀ (token username repo path content message : String) (sha : Option String),
      (fetch (putRequest h token username repo path content message sha)).ok = false →
      (createOrUpdateFile h fetch token username repo path content message sha).1 =
        [putRequest h token username repo path content message sha] ∧
      (∀ errorData,
        (fetch (putRequest h token username repo path content message sha)).json =
          .value errorData →
        (∀ m, errorData.message = some m → m ≠ "" →
          (createOrUpdateFile h fetch token username repo path content message sha).2 =
            .error ("GitHub API error: " ++ m)) ∧
        (errorData.message = none ∨ errorData.message = some "" →
          (createOrUpdateFile h fetch token username repo path content message sha).2 =
            .error ("GitHub API error: " ++
              toString (fetch (putRequest h token username repo path content message
                sha)).status))) ∧
      (∀ before after,
        (fetch (putRequest h token username repo path content message sha)).json =
          .invalid before after →
        (createOrUpdateFile h fetch token username repo path content message sha).2 =
          .error (before ++ "JSON" ++ after)) ∧
      ((fetch (putRequest h token username repo path content message sha)).json = .null →
        (createOrUpdateFile h fetch token username repo path content message sha).2 =
          .error "Cannot read properties of null (reading \x27message\x27)"))
    ∧
    (∀ (settings : Settings) (solutionData : SolutionData) (existingSHA : Option String),
      credentialsConfigured settings →
      existenceCheckResult h fetch settings solutionData = .ok existingSHA →
      (fetch (writeRequest h settings solutionData existingSHA)).ok = false →
      (syncSolution h fetch (some settings) solutionData).1 =
        [existenceCheck h settings solutionData,
         writeRequest h settings solutionData existingSHA] ∧
      (∀ errorData,
        (fetch (writeRequest h settings solutionData existingSHA)).json = .value errorData →
        (∀ m, errorData.message = some m → m ≠ "" →
          (syncSolution h fetch (some settings) solutionData).2 =
            .error ("GitHub API error: " ++ m)) ∧
        (errorData.message = none ∨ errorData.message = some "" →
          (syncSolution h fetch (some settings) solutionData).2 =
            .error ("GitHub API error: " ++
              toString (fetch (writeRequest h settings solutionData existingSHA)).status))) ∧
      (∀ before after,
        (fetch (writeRequest h settings solutionData existingSHA)).json =
          .invalid before after →
        (syncSolution h fetch (some settings) solutionData).2 =
          .error (before ++ "JSON" ++ after)) ∧
      ((fetch (writeRequest h settings solutionData existingSHA)).json = .null →
        (syncSolution h fetch (some settings) solutionData).2 =
          .error "Cannot read properties of null (reading \x27message\x27)")) := by
  have hnull : nullPropertyError "message" =
      "Cannot read properties of null (reading \x27message\x27)" := rfl
  constructor
  · intro token username repo path content message sha hok
    refine ⟨createOrUpdateFile_requests _ _ _ _ _ _ _ _ _, ?_, ?_, ?_⟩
    · intro errorData hjson
      have herr := createOrUpdateFile_error h fetch token username repo path content message sha
        errorData hok hjson
      constructor
      · intro m hm hne
        rw [herr, errorDetail_of_message _ _ m hm hne]
      · intro hm
        rw [herr, errorDetail_of_no_message _ _ hm]
    · intro before after hjson
      exact createOrUpdateFile_invalid_error h fetch token username repo path content message
        sha before after hjson
    · intro hjson
      rw [← hnull]
      exact createOrUpdateFile_null_error h fetch token username repo path content message sha
        hok hjson
  · intro settings solutionData existingSHA hcfg hget hok
    refine ⟨syncSolution_requests h fetch settings solutionData existingSHA hcfg hget, ?_, ?_, ?_⟩
    · intro errorData hjson
      have herr := syncSolution_write_error h fetch settings solutionData existingSHA _ hcfg hget
        (createOrUpdateFile_error h fetch _ _ _ _ _ _ _ errorData hok hjson)
      constructor
      · intro m hm hne
        rw [herr, errorDetail_of_message _ _ m hm hne]
      · intro hm
        rw [herr, errorDetail_of_no_message _ _ hm]
        rfl
    · intro before after hjson
      exact syncSolution_write_error h fetch settings solutionData existingSHA _ hcfg hget
        (createOrUpdateFile_invalid_error h fetch _ _ _ _ _ _ _ before after hjson)
    · intro hjson
      rw [← hnull]
      exact syncSolution_write_error h fetch settings solutionData existingSHA _ hcfg hget
        (createOrUpdateFile_null_error h fetch _ _ _ _ _ _ _ hok hjson)

/-- C10 amended, at two remotes. A write refused with the JSON body
`message: "Validation Failed"` makes `syncSolution` fail with exactly
`GitHub API error: Validation Failed`; a write answered with status 502 and an
HTML page makes it fail with the message of the parser. -/
theorem createOrUpdateFile_failure_witness :
    credentialsConfigured exampleSettings ∧
    existenceCheckResult exampleHost remoteRejecting exampleSettings exampleSolution = .ok none ∧
    (remoteRejecting (writeRequest exampleHost exampleSettings exampleSolution none)).ok = false ∧
    (remoteRejecting (writeRequest exampleHost exampleSettings exampleSolution none)).json =
      .value { sha := none, message := some "Validation Failed", content := .undefined } ∧
    (syncSolution exampleHost remoteRejecting (some exampleSettings) exampleSolution).2 =
      .error "GitHub API error: Validation Failed" ∧
    (syncSolution exampleHost remoteRejecting (some exampleSettings) exampleSolution).1 =
      [existenceCheck exampleHost exampleSettings exampleSolution,
       writeRequest exampleHost exampleSettings exampleSolution none] ∧
    (remoteBadGateway (writeRequest exampleHost exampleSettings exampleSolution none)).ok
      = false ∧
    (syncSolution exampleHost remoteBadGateway (some exampleSettings) exampleSolution).2 =
      .error "Unexpected token \x27<\x27, \"<html>\r\n<h\"... is not valid JSON" :=
  have hcfg : credentialsConfigured exampleSettings := by
    unfold credentialsConfigured; decide
  ⟨hcfg, rfl, rfl, rfl,
    (((createOrUpdateFile_failure exampleHost remoteRejecting).2 exampleSettings exampleSolution
      none hcfg rfl rfl).2.1 _ rfl).1 "Validation Failed" rfl (by decide),
    ((createOrUpdateFile_failure exampleHost remoteRejecting).2 exampleSettings exampleSolution
      none hcfg rfl rfl).1,
    rfl,
    (((createOrUpdateFile_failure exampleHost remoteBadGateway).2 exampleSettings exampleSolution
      none hcfg rfl rfl).2.2.1 _ _ rfl).trans rfl⟩

/-! ## The body of the write -/

/-- C8: in `syncSolution`, once the credentials pass and the existence check
returns, exactly one write is issued. Its body has a `sha` exactly when the
existence check returned a revision id (a non-empty string); then the `sha` is
that id and the message is `Update solution for` the title. Otherwise, and so
whenever the existence check got a 404, the body has no `sha` and the message
is `Add solution for` the title. -/
theorem syncSolution_put_body (h : Host) (fetch : Request → Response) (settings : Settings)
    (solutionData : SolutionData) (existingSHA : Option String)
    (hcfg : credentialsConfigured settings)
    (hget : existenceCheckResult h fetch settings solutionData = .ok existingSHA) :
    (truthy existingSHA = true →
      putBodies (syncSolution h fetch (some settings) solutionData).1 =
        [{ message := "Update solution for " ++ solutionData.problemTitle
           content := h.base64 (prepareFileContent h solutionData existingSHA)
           sha := existingSHA }]) ∧
    (truthy existingSHA = false →
      putBodies (syncSolution h fetch (some settings) solutionData).1 =
        [{ message := "Add solution for " ++ solutionData.problemTitle
           content := h.base64 (prepareFileContent h solutionData existingSHA)
           sha := none }]) ∧
    ((fetch (existenceCheck h settings solutionData)).status = 404 →
      putBodies (syncSolution h fetch (some settings) solutionData).1 =
        [{ message := "Add solution for " ++ solutionData.problemTitle
           content := h.base64 (prepareFileContent h solutionData none)
           sha := none }]) ∧
    (∀ body ∈ putBodies (syncSolution h fetch (some settings) solutionData).1,
      (body.sha.isSome = true ↔ truthy existingSHA = true) ∧
      (∀ id, body.sha = some id → existingSHA = some id)) := by
  have hreq := syncSolution_requests h fetch settings solutionData existingSHA hcfg hget
  have hbodies : putBodies (syncSolution h fetch (some settings) solutionData).1 =
      [{ message := commitMessage solutionData existingSHA
         content := h.base64 (prepareFileContent h solutionData existingSHA)
         sha := if truthy existingSHA then existingSHA else none }] := by
    rw [hreq]
    simp [putBodies, existenceCheck, writeRequest, getRequest, putRequest]
  refine ⟨?_, ?_, ?_, ?_⟩
  · intro ht
    rw [hbodies]
    simp [commitMessage, ht]
  · intro hf
    rw [hbodies]
    simp [commitMessage, hf]
  · intro h404
    have hnone : existingSHA = none := by
      have := getFileSHA_notFound h fetch (settings.githubToken.getD "")
        (settings.username.getD "") (settings.repository.getD "")
        (syncFilePath settings solutionData) h404
      unfold existenceCheckResult at hget
      rw [this] at hget
      injection hget with hget
      exact hget.symm
    subst hnone
    rw [hbodies]
    simp [commitMessage, truthy]
  · intro body hbody
    rw [hbodies] at hbody
    simp only [List.mem_singleton] at hbody
    subst hbody
    cases ht : truthy existingSHA
    · simp [ht]
    · cases existingSHA with
      | none => simp [truthy] at ht
      | some id => simp [ht]

/-- C8, at a remote without the file and at a remote with the file at revision
`abc123`: the first write has no `sha` and the message `Add solution for Two
Sum`, the second has the `sha` `abc123` and the message `Update solution for
Two Sum`. -/
theorem syncSolution_put_body_witness :
    credentialsConfigured exampleSettings ∧
    existenceCheckResult exampleHost remoteAbsent exampleSettings exampleSolution = .ok none ∧
    (putBodies (syncSolution exampleHost remoteAbsent (some exampleSettings) exampleSolution).1).map
      (fun b => (b.message, b.sha)) = [("Add solution for Two Sum", none)] ∧
    existenceCheckResult exampleHost remotePresent exampleSettings exampleSolution =
      .ok (some "abc123") ∧
    (putBodies (syncSolution exampleHost remotePresent (some exampleSettings)
      exampleSolution).1).map (fun b => (b.message, b.sha)) =
      [("Update solution for Two Sum", some "abc123")] :=
  have hcfg : credentialsConfigured exampleSettings := by
    unfold credentialsConfigured; decide
  ⟨hcfg, rfl,
    congrArg (List.map fun b => (b.message, b.sha))
      ((syncSolution_put_body exampleHost remoteAbsent exampleSettings exampleSolution none
        hcfg rfl).2.1 rfl),
    rfl,
    congrArg (List.map fun b => (b.message, b.sha))
      ((syncSolution_put_body exampleHost remotePresent exampleSettings exampleSolution
        (some "abc123") hcfg rfl).1 rfl)⟩

/-! ## The content of the write -/

theorem prepareFileContent_of_falsy (h : Host) (solutionData : SolutionData)
    (existingSHA : Option String) (hf : truthy existingSHA = false) :
    prepareFileContent h solutionData existingSHA =
      fileHeader h solutionData none ++ solutionData.code := by
  have hn : truthy none = false := rfl
  simp [prepareFileContent, fileHeader, hf, hn]

theorem prepareFileContent_of_truthy (h : Host) (solutionData : SolutionData)
    (existingSHA : Option String) (ht : truthy existingSHA = true) :
    prepareFileContent h solutionData existingSHA =
      solutionData.code ++ "\n\n// Solution " ++ toString h.now ++ "\n" := by
  simp only [prepareFileContent, ht, if_true]
  apply String.ext
  simp only [String.data_append, List.append_assoc]
  rfl

/-- The header for a missing revision, written out. -/
theorem fileHeader_of_falsy (h : Host) (solutionData : SolutionData)
    (existingSHA : Option String) (hf : truthy existingSHA = false) :
    fileHeader h solutionData existingSHA =
      "/*\n * LeetCode Solution: " ++ solutionData.problemTitle ++
      "\n * Difficulty: " ++ solutionData.difficulty ++
      "\n * Language: " ++ solutionData.language ++
      "\n * URL: " ++ solutionData.url ++
      "\n * Date: " ++ h.toLocaleString solutionData.timestamp ++
      "\n * Solution: Initial\n */\n\n" := by
  simp only [fileHeader, hf, Bool.false_eq_true, if_false]
  apply String.ext
  simp only [String.data_append, List.append_assoc]
  rfl

/-- The text that the update branch puts after the code has no `L`. -/
theorem marker_no_L (n : Nat) :
    ('L' : Char) ∉ ("\n\n// Solution " ++ toString n ++ "\n").data := by
  intro hmem
  simp only [String.data_append, List.mem_append] at hmem
  rcases hmem with (hmem | hmem) | hmem
  · revert hmem; decide
  · have := toString_decimal n _ hmem
    revert this; decide
  · revert hmem; decide

/-- The text that the update branch puts after the code has no `U`. -/
theorem marker_no_U (n : Nat) :
    ('U' : Char) ∉ ("\n\n// Solution " ++ toString n ++ "\n").data := by
  intro hmem
  simp only [String.data_append, List.mem_append] at hmem
  rcases hmem with (hmem | hmem) | hmem
  · revert hmem; decide
  · have := toString_decimal n _ hmem
    revert this; decide
  · revert hmem; decide

theorem header_has_L (h : Host) (solutionData : SolutionData) (sha : Option String) :
    'L' ∈ (fileHeader h solutionData sha).data := by
  simp only [fileHeader, String.data_append, List.mem_append]
  repeat left
  decide

/-- The content of a first write is never the content of an update: the header
has the letter `L` of `LeetCode`, the text after the code of an update has
none. -/
theorem header_code_ne_code_marker (h : Host) (solutionData : SolutionData)
    (sha : Option String) :
    fileHeader h solutionData sha ++ solutionData.code ≠
      solutionData.code ++ "\n\n// Solution " ++ toString h.now ++ "\n" := by
  intro heq
  have hcount := congrArg (fun s => s.data.count 'L') heq
  simp only [String.data_append, List.count_append] at hcount
  have h1 : 0 < (fileHeader h solutionData sha).data.count 'L' :=
    List.count_pos_iff.mpr (header_has_L h solutionData sha)
  have h2 : ("\n\n// Solution " ++ toString h.now ++ "\n").data.count 'L' = 0 :=
    List.count_eq_zero.mpr (marker_no_L h.now)
  simp only [String.data_append, List.count_append] at h2
  omega

/-- What `syncSolution` writes, for credentials that pass the check and an
existence check that returns: the encoded prepared content. -/
theorem syncSolution_writtenContent (h : Host) (fetch : Request → Response)
    (settings : Settings) (solutionData : SolutionData) (existingSHA : Option String)
    (hcfg : credentialsConfigured settings)
    (hget : existenceCheckResult h fetch settings solutionData = .ok existingSHA) :
    writtenContent (syncSolution h fetch (some settings) solutionData).1 =
      some (h.base64 (prepareFileContent h solutionData existingSHA)) := by
  rw [syncSolution_requests h fetch settings solutionData existingSHA hcfg hget]
  simp [writtenContent, existenceCheck, writeRequest, getRequest, putRequest]

/-- C6: for every solution, when there is no existing revision the content is
the header comment block followed by the code unchanged. The result ends with
the code, and the header has the lines of the title, the difficulty, the
language, the URL and the formatted timestamp, and the line `Solution:
Initial`. -/
theorem prepareFileContent_initial (h : Host) (solutionData : SolutionData)
    (existingSHA : Option String) (hf : truthy existingSHA = false) :
    prepareFileContent h solutionData existingSHA =
      "/*\n * LeetCode Solution: " ++ solutionData.problemTitle ++
      "\n * Difficulty: " ++ solutionData.difficulty ++
      "\n * Language: " ++ solutionData.language ++
      "\n * URL: " ++ solutionData.url ++
      "\n * Date: " ++ h.toLocaleString solutionData.timestamp ++
      "\n * Solution: Initial\n */\n\n" ++ solutionData.code ∧
    prepareFileContent h solutionData existingSHA =
      fileHeader h solutionData existingSHA ++ solutionData.code ∧
    endsWith (prepareFileContent h solutionData existingSHA) solutionData.code ∧
    includes (fileHeader h solutionData existingSHA)
      (" * LeetCode Solution: " ++ solutionData.problemTitle ++ "\n") ∧
    includes (fileHeader h solutionData existingSHA)
      (" * Difficulty: " ++ solutionData.difficulty ++ "\n") ∧
    includes (fileHeader h solutionData existingSHA)
      (" * Language: " ++ solutionData.language ++ "\n") ∧
    includes (fileHeader h solutionData existingSHA)
      (" * URL: " ++ solutionData.url ++ "\n") ∧
    includes (fileHeader h solutionData existingSHA)
      (" * Date: " ++ h.toLocaleString solutionData.timestamp ++ "\n") ∧
    includes (fileHeader h solutionData existingSHA) " * Solution: Initial\n" := by
  have hhdr := fileHeader_of_falsy h solutionData existingSHA hf
  have hcontent : prepareFileContent h solutionData existingSHA =
      fileHeader h solutionData existingSHA ++ solutionData.code := by
    simp [prepareFileContent, hf]
  refine ⟨?_, hcontent, ?_, ?_, ?_, ?_, ?_, ?_, ?_⟩
  · rw [hcontent, hhdr]
  · rw [hcontent]
    exact ⟨(fileHeader h solutionData existingSHA).data, (String.data_append _ _).symm⟩
  · rw [hhdr]
    refine ⟨"/*\n".data, ("\n * Difficulty: " ++ solutionData.difficulty ++
      "\n * Language: " ++ solutionData.language ++
      "\n * URL: " ++ solutionData.url ++
      "\n * Date: " ++ h.toLocaleString solutionData.timestamp ++
      "\n * Solution: Initial\n */\n\n").data |>.tail, ?_⟩
    simp only [String.data_append, List.append_assoc]
    rfl
  · rw [hhdr]
    refine ⟨("/*\n * LeetCode Solution: " ++ solutionData.problemTitle ++ "\n").data,
      (" * Language: " ++ solutionData.language ++
      "\n * URL: " ++ solutionData.url ++
      "\n * Date: " ++ h.toLocaleString solutionData.timestamp ++
      "\n * Solution: Initial\n */\n\n").data, ?_⟩
    simp only [String.data_append, List.append_assoc]
    rfl
  · rw [hhdr]
    refine ⟨("/*\n * LeetCode Solution: " ++ solutionData.problemTitle ++
      "\n * Difficulty: " ++ solutionData.difficulty ++ "\n").data,
      (" * URL: " ++ solutionData.url ++
      "\n * Date: " ++ h.toLocaleString solutionData.timestamp ++
      "\n * Solution: Initial\n */\n\n").data, ?_⟩
    simp only [String.data_append, List.append_assoc]
    rfl
  · rw [hhdr]
    refine ⟨("/*\n * LeetCode Solution: " ++ solutionData.problemTitle ++
      "\n * Difficulty: " ++ solutionData.difficulty ++
      "\n * Language: " ++ solutionData.language ++ "\n").data,
      (" * Date: " ++ h.toLocaleString solutionData.timestamp ++
      "\n * Solution: Initial\n */\n\n").data, ?_⟩
    simp only [String.data_append, List.append_assoc]
    rfl
  · rw [hhdr]
    refine ⟨("/*\n * LeetCode Solution: " ++ solutionData.problemTitle ++
      "\n * Difficulty: " ++ solutionData.difficulty ++
      "\n * Language: " ++ solutionData.language ++
      "\n * URL: " ++ solutionData.url ++ "\n").data,
      " * Solution: Initial\n */\n\n".data, ?_⟩
    simp only [String.data_append, List.append_assoc]
    rfl
  · rw [hhdr]
    refine ⟨("/*\n * LeetCode Solution: " ++ solutionData.problemTitle ++
      "\n * Difficulty: " ++ solutionData.difficulty ++
      "\n * Language: " ++ solutionData.language ++
      "\n * URL: " ++ solutionData.url ++
      "\n * Date: " ++ h.toLocaleString solutionData.timestamp ++ "\n").data,
      " */\n\n".data, ?_⟩
    simp only [String.data_append, List.append_assoc]
    rfl

/-- C6, at the example solution and no revision: the content, written out. -/
theorem prepareFileContent_initial_witness :
    truthy none = false ∧
    prepareFileContent exampleHost exampleSolution none =
      "/*\n * LeetCode Solution: Two Sum\n * Difficulty: Easy\n * Language: python\n * URL: https://leetcode.com/problems/two-sum/\n * Date: 1699999999000\n * Solution: Initial\n */\n\npass" :=
  ⟨rfl, (prepareFileContent_initial exampleHost exampleSolution none rfl).1.trans rfl⟩

/-- C7: for every solution and every non-empty revision id, the content is
exactly the code followed by an empty line and the line `// Solution` with the
clock in milliseconds. It starts with the code; the text after the code has no
`Solution: Updated`; the content is the same for every non-empty revision id;
and what `syncSolution` writes is the same for any two remotes whose existence
checks return a non-empty revision id, whatever else they answer. -/
theorem prepareFileContent_update (h : Host) (solutionData : SolutionData) (sha : String)
    (hsha : sha ≠ "") :
    prepareFileContent h solutionData (some sha) =
      solutionData.code ++ "\n\n// Solution " ++ toString h.now ++ "\n" ∧
    startsWith (prepareFileContent h solutionData (some sha)) solutionData.code ∧
    ¬ includes ("\n\n// Solution " ++ toString h.now ++ "\n") "Solution: Updated" ∧
    (∀ sha', sha' ≠ "" →
      prepareFileContent h solutionData (some sha') =
        prepareFileContent h solutionData (some sha)) ∧
    (∀ (fetch fetch' : Request → Response) (settings : Settings) (sha' : String),
      credentialsConfigured settings → sha' ≠ "" →
      existenceCheckResult h fetch settings solutionData = .ok (some sha) →
      existenceCheckResult h fetch' settings solutionData = .ok (some sha') →
      writtenContent (syncSolution h fetch (some settings) solutionData).1 =
        writtenContent (syncSolution h fetch' (some settings) solutionData).1) := by
  have htruthy : ∀ x : String, x ≠ "" → truthy (some x) = true := by
    intro x hx
    simp [truthy, hx]
  have hcontent : ∀ x : String, x ≠ "" → prepareFileContent h solutionData (some x) =
      solutionData.code ++ "\n\n// Solution " ++ toString h.now ++ "\n" :=
    fun x hx => prepareFileContent_of_truthy h solutionData (some x) (htruthy x hx)
  refine ⟨hcontent sha hsha, ?_, ?_, ?_, ?_⟩
  · rw [hcontent sha hsha]
    refine ⟨("\n\n// Solution " ++ toString h.now ++ "\n").data, ?_⟩
    simp only [String.data_append, List.append_assoc]
  · intro hinc
    exact marker_no_U h.now (hinc.subset (by decide))
  · intro sha' hsha'
    rw [hcontent sha hsha, hcontent sha' hsha']
  · intro fetch fetch' settings sha' hcfg hsha' hget hget'
    rw [syncSolution_writtenContent h fetch settings solutionData (some sha) hcfg hget,
      syncSolution_writtenContent h fetch' settings solutionData (some sha') hcfg hget',
      hcontent sha hsha, hcontent sha' hsha']

/-- C7, at the example solution and the revision `abc123`: the content, written
out. -/
theorem prepareFileContent_update_witness :
    "abc123" ≠ "" ∧
    prepareFileContent exampleHost exampleSolution (some "abc123") =
      "pass\n\n// Solution 1700000000000\n" :=
  ⟨by decide,
    (prepareFileContent_update exampleHost exampleSolution "abc123" (by decide)).1.trans
      (by decide)⟩

/-- C5, as stated, fails at the example solution: the first call finds no file
and writes the header and the code, the second finds the revision `abc123` and
writes the code and the marker line, and the two contents differ. -/
theorem sync_twice_content_differs :
    existenceCheckResult exampleHost remoteAbsent exampleSettings exampleSolution = .ok none ∧
    existenceCheckResult exampleHost remotePresent exampleSettings exampleSolution =
      .ok (some "abc123") ∧
    writtenContent (syncSolution exampleHost remoteAbsent (some exampleSettings)
      exampleSolution).1 =
      some "/*\n * LeetCode Solution: Two Sum\n * Difficulty: Easy\n * Language: python\n * URL: https://leetcode.com/problems/two-sum/\n * Date: 1699999999000\n * Solution: Initial\n */\n\npass" ∧
    writtenContent (syncSolution exampleHost remotePresent (some exampleSettings)
      exampleSolution).1 = some "pass\n\n// Solution 1700000000000\n" ∧
    ¬ (writtenContent (syncSolution exampleHost remotePresent (some exampleSettings)
        exampleSolution).1 =
      writtenContent (syncSolution exampleHost remoteAbsent (some exampleSettings)
        exampleSolution).1) := by
  refine ⟨rfl, rfl, rfl, rfl, fun heq => ?_⟩
  have hsome : some "pass\n\n// Solution 1700000000000\n" =
      some ("/*\n * LeetCode Solution: Two Sum\n * Difficulty: Easy\n * Language: python\n" ++
        " * URL: https://leetcode.com/problems/two-sum/\n * Date: 1699999999000\n" ++
        " * Solution: Initial\n */\n\npass") := heq
  injection hsome with hsome
  have hfirst := congrArg (fun t => t.data.head?) hsome
  simp [String.data_append] at hfirst

/-- C5, amended: calling sync twice with the same solution data, where the
first call finds no file and the second finds a non-empty revision id, writes
to the same URL twice; the first call writes the header and the code, the
second the code and the marker line, and for a host whose base64 encoding is
injective the two contents written are never equal. The first content ends
with the code and the second starts with it. -/
theorem sync_twice_content (h : Host) (first second : Request → Response) (settings : Settings)
    (solutionData : SolutionData) (revision : String)
    (hinj : Function.Injective h.base64)
    (hcfg : credentialsConfigured settings)
    (hfirst : (first (existenceCheck h settings solutionData)).status = 404)
    (hsecond : existenceCheckResult h second settings solutionData = .ok (some revision))
    (hrev : revision ≠ "") :
    writtenContent (syncSolution h first (some settings) solutionData).1 =
      some (h.base64 (fileHeader h solutionData none ++ solutionData.code)) ∧
    writtenContent (syncSolution h second (some settings) solutionData).1 =
      some (h.base64 (solutionData.code ++ "\n\n// Solution " ++ toString h.now ++ "\n")) ∧
    writtenContent (syncSolution h second (some settings) solutionData).1 ≠
      writtenContent (syncSolution h first (some settings) solutionData).1 ∧
    (writeRequest h settings solutionData (some revision)).url =
      (writeRequest h settings solutionData none).url ∧
    endsWith (fileHeader h solutionData none ++ solutionData.code) solutionData.code ∧
    startsWith (solutionData.code ++ "\n\n// Solution " ++ toString h.now ++ "\n")
      solutionData.code := by
  have hget : existenceCheckResult h first settings solutionData = .ok none :=
    getFileSHA_notFound h first (settings.githubToken.getD "") (settings.username.getD "")
      (settings.repository.getD "") (syncFilePath settings solutionData) hfirst
  have ht : truthy (some revision) = true := by simp [truthy, hrev]
  have h1 := syncSolution_writtenContent h first settings solutionData none hcfg hget
  have h2 := syncSolution_writtenContent h second settings solutionData (some revision) hcfg
    hsecond
  rw [prepareFileContent_of_falsy h solutionData none rfl] at h1
  rw [prepareFileContent_of_truthy h solutionData (some revision) ht] at h2
  refine ⟨h1, h2, ?_, rfl, ?_, ?_⟩
  · rw [h1, h2]
    intro heq
    injection heq with heq
    exact header_code_ne_code_marker h solutionData none (hinj heq).symm
  · exact ⟨(fileHeader h solutionData none).data, (String.data_append _ _).symm⟩
  · refine ⟨("\n\n// Solution " ++ toString h.now ++ "\n").data, ?_⟩
    simp only [String.data_append, List.append_assoc]

/-- C5 amended, at the example: the remote without the file, then the remote
with the file at revision `abc123`. -/
theorem sync_twice_content_witness :
    Function.Injective exampleHost.base64 ∧
    credentialsConfigured exampleSettings ∧
    (remoteAbsent (existenceCheck exampleHost exampleSettings exampleSolution)).status = 404 ∧
    existenceCheckResult exampleHost remotePresent exampleSettings exampleSolution =
      .ok (some "abc123") ∧
    "abc123" ≠ "" ∧
    writtenContent (syncSolution exampleHost remotePresent (some exampleSettings)
      exampleSolution).1 ≠
      writtenContent (syncSolution exampleHost remoteAbsent (some exampleSettings)
        exampleSolution).1 :=
  have hcfg : credentialsConfigured exampleSettings := by
    unfold credentialsConfigured; decide
  ⟨fun _ _ hab => hab, hcfg, rfl, rfl, by decide,
    (sync_twice_content exampleHost remoteAbsent remotePresent exampleSettings exampleSolution
      "abc123" (fun _ _ hab => hab) hcfg rfl rfl (by decide)).2.2.1⟩

/-! ## Extraction from the page -/

theorem includes_of_includes (text big small : String) (hsub : small.data <:+: big.data)
    (h : includes text big) : includes text small :=
  List.IsInfix.trans hsub h

theorem languageOfText_cons (text lang : String) (rest : List String) :
    languageOfText text (lang :: rest) =
      if includes text lang then some (if lang = "c++" then "cpp" else lang)
      else languageOfText text rest := rfl

/-- Every value of the inner loop of `extractLanguage` over the list
`languages` is one of eight names. -/
theorem languageOfText_mem (text r : String) (h : languageOfText text languages = some r) :
    r ∈ ["python", "javascript", "java", "cpp", "c", "go", "rust", "sql"] := by
  unfold languages at h
  repeat rw [languageOfText_cons] at h
  by_cases h1 : includes text "python"
  · rw [if_pos h1] at h
    injection h with h
    subst h
    decide
  rw [if_neg h1] at h
  by_cases h2 : includes text "javascript"
  · rw [if_pos h2] at h
    injection h with h
    subst h
    decide
  rw [if_neg h2] at h
  by_cases h3 : includes text "java"
  · rw [if_pos h3] at h
    injection h with h
    subst h
    decide
  rw [if_neg h3] at h
  by_cases h4 : includes text "cpp"
  · rw [if_pos h4] at h
    injection h with h
    subst h
    decide
  rw [if_neg h4] at h
  by_cases h5 : includes text "c++"
  · rw [if_pos h5] at h
    injection h with h
    subst h
    decide
  rw [if_neg h5] at h
  by_cases h6 : includes text "c"
  · rw [if_pos h6] at h
    injection h with h
    subst h
    decide
  rw [if_neg h6] at h
  by_cases h7 : includes text "c#"
  · exact absurd (includes_of_includes text "c#" "c" (by decide) h7) h6
  rw [if_neg h7] at h
  by_cases h8 : includes text "go"
  · rw [if_pos h8] at h
    injection h with h
    subst h
    decide
  rw [if_neg h8] at h
  by_cases h9 : includes text "rust"
  · rw [if_pos h9] at h
    injection h with h
    subst h
    decide
  rw [if_neg h9] at h
  by_cases h10 : includes text "typescript"
  · exact absurd (includes_of_includes text "typescript" "c" (by decide) h10) h6
  rw [if_neg h10] at h
  by_cases h11 : includes text "sql"
  · rw [if_pos h11] at h
    injection h with h
    subst h
    decide
  rw [if_neg h11] at h
  exact Option.noConfusion h

/-- A text that contains `c` and none of `python`, `javascript`, `java`, `cpp`
and `c++` is reported as `c`. -/
theorem languageOfText_c (text : String) (hc : includes text "c")
    (h1 : ¬ includes text "python") (h2 : ¬ includes text "javascript")
    (h3 : ¬ includes text "java") (h4 : ¬ includes text "cpp") (h5 : ¬ includes text "c++") :
    languageOfText text languages = some "c" := by
  unfold languages
  repeat rw [languageOfText_cons]
  rw [if_neg h1, if_neg h2, if_neg h3, if_neg h4, if_neg h5, if_pos hc]
  rfl

theorem findSome_mem {α β : Type} (f : α → Option β) (l : List α) (b : β)
    (h : l.findSome? f = some b) : ∃ a ∈ l, f a = some b := by
  induction l with
  | nil => simp at h
  | cons a l ih =>
    simp only [List.findSome?] at h
    cases hfa : f a with
    | some v =>
      rw [hfa] at h
      simp only [] at h
      exact ⟨a, List.mem_cons_self _ _, by rw [hfa, h]⟩
    | none =>
      rw [hfa] at h
      obtain ⟨a', ha', hfa'⟩ := ih h
      exact ⟨a', List.mem_cons_of_mem _ ha', hfa'⟩

/-- The language that `extractLanguage` returns is one of eight names. -/
theorem extractLanguage_mem (page : Page) :
    extractLanguage page ∈ ["python", "javascript", "java", "cpp", "c", "go", "rust", "sql"] := by
  unfold extractLanguage
  simp only []
  split
  · rename_i lang hfind
    obtain ⟨selector, _, hsel⟩ := findSome_mem _ _ _ hfind
    split at hsel
    · exact languageOfText_mem _ _ hsel
    · exact Option.noConfusion hsel
  · split
    · split_ifs <;> decide
    · decide

/-- What a returned submission says about the page it was extracted from. -/
theorem extractSubmissionData_some (h : Host) (page : Page) (s : SubmissionData)
    (hs : extractSubmissionData h page = some s) :
    scanStatus page statusSelectors = some true ∧
    extractProblemTitle page = some s.problemTitle ∧
    extractCode page = some s.code ∧
    s.language = extractLanguage page ∧
    s.slug = extractProblemSlug page ∧
    s.problemTitle ≠ "" ∧ s.language ≠ "" ∧ s.code ≠ "" ∧ s.isAccepted = true := by
  unfold extractSubmissionData at hs
  split at hs
  · rename_i hscan
    simp only [] at hs
    split at hs
    · rename_i title code htitle hcode
      by_cases hempty : title = "" ∨ extractLanguage page = "" ∨ code = ""
      · rw [if_pos hempty] at hs
        exact Option.noConfusion hs
      · rw [if_neg hempty] at hs
        injection hs with hs
        subst hs
        simp only [not_or] at hempty
        exact ⟨hscan, htitle, hcode, rfl, rfl, hempty.1, hempty.2.1, hempty.2.2, rfl⟩
    · exact Option.noConfusion hs
  · exact Option.noConfusion hs

/-- The language of a returned submission has no hyphen. -/
theorem extractSubmissionData_language (h : Host) (page : Page) (s : SubmissionData)
    (hs : extractSubmissionData h page = some s) : '-' ∉ s.language.data := by
  have hmem := extractLanguage_mem page
  rw [← (extractSubmissionData_some h page s hs).2.2.2.1] at hmem
  generalize s.language = l at hmem
  simp only [List.mem_cons, List.mem_singleton, List.not_mem_nil, or_false] at hmem
  rcases hmem with rfl | rfl | rfl | rfl | rfl | rfl | rfl | rfl <;> decide

/-- C14: every value that `extractSubmissionData` returns is `null` or a
submission whose title, language and code are not empty and whose `isAccepted`
is true; it is `null` whenever no accepted status is found (the scan ends
without one, or throws), or the title or the code cannot be extracted. -/
theorem extractSubmissionData_actionable (h : Host) (page : Page) :
    (∀ s, extractSubmissionData h page = some s →
      s.problemTitle ≠ "" ∧ s.language ≠ "" ∧ s.code ≠ "" ∧ s.isAccepted = true) ∧
    (scanStatus page statusSelectors ≠ some true → extractSubmissionData h page = none) ∧
    (extractProblemTitle page = none → extractSubmissionData h page = none) ∧
    (extractCode page = none → extractSubmissionData h page = none) := by
  refine ⟨?_, ?_, ?_, ?_⟩
  · intro s hs
    have hsome := extractSubmissionData_some h page s hs
    exact ⟨hsome.2.2.2.2.2.1, hsome.2.2.2.2.2.2.1, hsome.2.2.2.2.2.2.2.1,
      hsome.2.2.2.2.2.2.2.2⟩
  · intro hscan
    cases hs : extractSubmissionData h page with
    | none => rfl
    | some s =>
      exact absurd (extractSubmissionData_some h page s hs).1 hscan
  · intro htitle
    cases hs : extractSubmissionData h page with
    | none => rfl
    | some s =>
      have := (extractSubmissionData_some h page s hs).2.1
      rw [htitle] at this
      exact Option.noConfusion this
  · intro hcode
    cases hs : extractSubmissionData h page with
    | none => rfl
    | some s =>
      have := (extractSubmissionData_some h page s hs).2.2.1
      rw [hcode] at this
      exact Option.noConfusion this

/-- C14, at two pages: the accepted page gives a submission with the title
`1. Two Sum`, and the same page without any status element gives `null`. -/
theorem extractSubmissionData_actionable_witness :
    (extractSubmissionData exampleHost (acceptedPage "two-sum" "Python3")).map
      (fun s => (s.problemTitle, s.language, s.isAccepted)) =
      some ("1. Two Sum", "python", true) ∧
    scanStatus { acceptedPage "two-sum" "Python3" with querySelector := fun _ => none }
      statusSelectors = some false ∧
    extractSubmissionData exampleHost
      { acceptedPage "two-sum" "Python3" with querySelector := fun _ => none } = none :=
  ⟨by decide, by decide,
    (extractSubmissionData_actionable exampleHost
      { acceptedPage "two-sum" "Python3" with querySelector := fun _ => none }).2.1
      (by decide)⟩

/-- The scan of a list of selectors finds an accepted status exactly when some
selector of the list matches an element that indicates it, and every selector
before it that matches an element matches one that does not. -/
theorem scanStatus_iff (page : Page) (selectors : List String) :
    scanStatus page selectors = some true ↔
      ∃ pre selector post element, selectors = pre ++ selector :: post ∧
        page.querySelector selector = some element ∧
        indicatesAccepted element = some true ∧
        ∀ earlier ∈ pre, ∀ e, page.querySelector earlier = some e →
          indicatesAccepted e = some false := by
  induction selectors with
  | nil =>
    constructor
    · intro hscan
      exact absurd hscan (by simp [scanStatus])
    · rintro ⟨pre, sel, post, el, hsplit, _⟩
      exact absurd hsplit (by simp)
  | cons a rest ih =>
    have hskip : scanStatus page rest = some true →
        (∀ e, page.querySelector a = some e → indicatesAccepted e = some false) →
        ∃ pre selector post element, a :: rest = pre ++ selector :: post ∧
          page.querySelector selector = some element ∧
          indicatesAccepted element = some true ∧
          ∀ earlier ∈ pre, ∀ e, page.querySelector earlier = some e →
            indicatesAccepted e = some false := by
      intro hrest ha
      obtain ⟨pre, sel, post, el, hsplit, hel, hacc, hpre⟩ := ih.mp hrest
      refine ⟨a :: pre, sel, post, el, by rw [hsplit]; rfl, hel, hacc, ?_⟩
      intro earlier hmem e he
      rcases List.mem_cons.mp hmem with rfl | hmem
      · exact ha e he
      · exact hpre earlier hmem e he
    have hback : (∃ pre selector post element, a :: rest = pre ++ selector :: post ∧
          page.querySelector selector = some element ∧
          indicatesAccepted element = some true ∧
          ∀ earlier ∈ pre, ∀ e, page.querySelector earlier = some e →
            indicatesAccepted e = some false) →
        (∃ e, page.querySelector a = some e ∧ indicatesAccepted e = some true) ∨
        ((∀ e, page.querySelector a = some e → indicatesAccepted e = some false) ∧
          scanStatus page rest = some true) := by
      rintro ⟨pre, sel, post, el, hsplit, hel, hacc, hpre⟩
      cases pre with
      | nil =>
        simp only [List.nil_append, List.cons.injEq] at hsplit
        obtain ⟨rfl, _⟩ := hsplit
        exact Or.inl ⟨el, hel, hacc⟩
      | cons b pre' =>
        simp only [List.cons_append, List.cons.injEq] at hsplit
        obtain ⟨rfl, hrest⟩ := hsplit
        refine Or.inr ⟨fun e he => hpre a (List.mem_cons_self _ _) e he, ?_⟩
        exact ih.mpr ⟨pre', sel, post, el, hrest, hel, hacc,
          fun earlier hmem e he => hpre earlier (List.mem_cons_of_mem _ hmem) e he⟩
    unfold scanStatus
    cases hq : page.querySelector a with
    | none =>
      simp only []
      constructor
      · intro hrest
        exact hskip hrest (fun e he => by rw [hq] at he; exact Option.noConfusion he)
      · intro hex
        rcases hback hex with ⟨e, he, _⟩ | ⟨_, hrest⟩
        · rw [hq] at he
          exact Option.noConfusion he
        · exact hrest
    | some element =>
      simp only []
      cases hacc : indicatesAccepted element with
      | none =>
        simp only []
        constructor
        · intro hc
          exact Option.noConfusion hc
        · intro hex
          rcases hback hex with ⟨e, he, hacc'⟩ | ⟨hfalse, _⟩
          · rw [hq] at he
            injection he with he
            subst he
            rw [hacc] at hacc'
            exact Option.noConfusion hacc'
          · have := hfalse element hq
            rw [hacc] at this
            exact Option.noConfusion this
      | some accepted =>
        cases accepted with
        | true =>
          simp only []
          exact ⟨fun _ => ⟨[], a, rest, element, rfl, hq, hacc, by simp⟩, fun _ => trivial⟩
        | false =>
          simp only []
          constructor
          · intro hrest
            refine hskip hrest (fun e he => ?_)
            rw [hq] at he
            injection he with he
            subst he
            exact hacc
          · intro hex
            rcases hback hex with ⟨e, he, hacc'⟩ | ⟨_, hrest⟩
            · rw [hq] at he
              injection he with he
              subst he
              rw [hacc] at hacc'
              injection hacc' with hacc'
              exact Bool.noConfusion hacc'
            · exact hrest

/-- The test on a status element gives true exactly for a string class name
and a text that contains `accepted` or a class name that contains `success` or
`accepted`. -/
theorem indicatesAccepted_iff (element : Element) :
    indicatesAccepted element = some true ↔
      ∃ value, element.className = .string value ∧
        (includes (toLowerCase element.textContent) "accepted" ∨
          includes (toLowerCase value) "success" ∨
          includes (toLowerCase value) "accepted") := by
  unfold indicatesAccepted
  cases hclass : element.className with
  | animated => simp
  | string value => simp [or_assoc]

/-- The scan is accepted when the first element matched indicates it. -/
theorem scanStatus_of_firstMatch (page : Page) (selectors : List String) (element : Element)
    (hfirst : firstMatch page selectors = some element)
    (hacc : indicatesAccepted element = some true) :
    scanStatus page selectors = some true := by
  induction selectors with
  | nil => exact absurd hfirst (by simp [firstMatch])
  | cons a rest ih =>
    unfold firstMatch at hfirst ih
    simp only [List.findSome?] at hfirst
    unfold scanStatus
    cases hq : page.querySelector a with
    | none =>
      rw [hq] at hfirst
      exact ih hfirst
    | some e =>
      rw [hq] at hfirst
      simp only [] at hfirst
      injection hfirst with hfirst
      subst hfirst
      simp only [hacc]

/-- C15, as stated, fails at the page of a rejected run that shows an element
of class `success`: the first candidate that matches is the result element,
which reads `Wrong Answer` and does not indicate acceptance, yet the scan goes
on to `.success`, finds the status accepted, and a submission is returned. -/
theorem scanStatus_not_first_match :
    firstMatch rejectedPage statusSelectors =
      some { textContent := "Wrong Answer", className := .string "text-red" } ∧
    indicatesAccepted { textContent := "Wrong Answer", className := .string "text-red" } =
      some false ∧
    scanStatus rejectedPage statusSelectors = some true ∧
    (extractSubmissionData exampleHost rejectedPage).isSome = true := by
  decide

/-- C15, amended: the accepted status is decided by the first selector
candidate, in list order, whose matched element indicates acceptance or has a
class name that is not a string. For every page the result is accepted exactly
when some candidate matches an element with a string class name whose text
contains `accepted` or whose class name contains `success` or `accepted`, and
every earlier candidate that matches an element matches one that does not
indicate acceptance. When the first matching element indicates acceptance the
result is accepted whatever later candidates match; when it does not, the
result is that of the scan of the candidates after it; and when its class name
is not a string, as for an SVG element, the scan throws and
`extractSubmissionData` returns `null`. -/
theorem scanStatus_first_accepting (page : Page) :
    (scanStatus page statusSelectors = some true ↔
      ∃ pre selector post element, statusSelectors = pre ++ selector :: post ∧
        page.querySelector selector = some element ∧
        (∃ value, element.className = .string value ∧
          (includes (toLowerCase element.textContent) "accepted" ∨
            includes (toLowerCase value) "success" ∨
            includes (toLowerCase value) "accepted")) ∧
        ∀ earlier ∈ pre, ∀ e, page.querySelector earlier = some e →
          indicatesAccepted e = some false) ∧
    (∀ element, firstMatch page statusSelectors = some element →
      indicatesAccepted element = some true → scanStatus page statusSelectors = some true) ∧
    (∀ selector rest element, page.querySelector selector = some element →
      indicatesAccepted element = some false →
      scanStatus page (selector :: rest) = scanStatus page rest) ∧
    (∀ selector rest element, page.querySelector selector = some element →
      element.className = .animated →
      scanStatus page (selector :: rest) = none) ∧
    (scanStatus page statusSelectors = none →
      ∀ h : Host, extractSubmissionData h page = none) := by
  refine ⟨?_, ?_, ?_, ?_, ?_⟩
  · rw [scanStatus_iff]
    constructor
    · rintro ⟨pre, sel, post, el, hsplit, hel, hacc, hpre⟩
      exact ⟨pre, sel, post, el, hsplit, hel, (indicatesAccepted_iff el).mp hacc, hpre⟩
    · rintro ⟨pre, sel, post, el, hsplit, hel, hacc, hpre⟩
      exact ⟨pre, sel, post, el, hsplit, hel, (indicatesAccepted_iff el).mpr hacc, hpre⟩
  · intro element hfirst hacc
    exact scanStatus_of_firstMatch page statusSelectors element hfirst hacc
  · intro selector rest element hq hacc
    conv_lhs => unfold scanStatus
    simp only [hq, hacc]
  · intro selector rest element hq hclass
    have hnone : indicatesAccepted element = none := by
      simp [indicatesAccepted, hclass]
    conv_lhs => unfold scanStatus
    simp only [hq, hnone]
  · intro hscan h
    unfold extractSubmissionData
    rw [hscan]

/-- C15 amended, at two pages. On the page of the rejected run the scan past
the result element is the scan of the other four candidates, which finds the
element of `.success`. On the page whose `.success` is an SVG icon the scan
throws at it, although `.submission-result` reads `Accepted`, and no
submission is returned. -/
theorem scanStatus_first_accepting_witness :
    rejectedPage.querySelector "[data-e2e-locator=\"submission-result\"]" =
      some { textContent := "Wrong Answer", className := .string "text-red" } ∧
    indicatesAccepted { textContent := "Wrong Answer", className := .string "text-red" } =
      some false ∧
    scanStatus rejectedPage statusSelectors =
      scanStatus rejectedPage [".success", "[data-status=\"accepted\"]", ".submission-result",
        ".e2e-locator-submission-result"] ∧
    scanStatus rejectedPage statusSelectors = some true ∧
    scanStatus svgBadgePage statusSelectors = none ∧
    extractSubmissionData exampleHost svgBadgePage = none :=
  ⟨by decide, by decide,
    (scanStatus_first_accepting rejectedPage).2.2.1 "[data-e2e-locator=\"submission-result\"]"
      [".success", "[data-status=\"accepted\"]", ".submission-result",
        ".e2e-locator-submission-result"]
      { textContent := "Wrong Answer", className := .string "text-red" } (by decide) (by decide),
    by decide, by decide,
    (scanStatus_first_accepting svgBadgePage).2.2.2.2 (by decide) exampleHost⟩

/-- C20: for every page the language that `extractLanguage` returns is one of
`python`, `javascript`, `java`, `cpp`, `c`, `go`, `rust` and `sql`, never
`c#`, `typescript` or `c++`: a text that contains `c#` or `typescript`
contains `c`, which comes earlier in the list, and a language element that
reads `typescript` or `c#` is reported as `c`. -/
theorem extractLanguage_values (page : Page) :
    extractLanguage page ∈
      ["python", "javascript", "java", "cpp", "c", "go", "rust", "sql"] ∧
    extractLanguage page ≠ "c#" ∧ extractLanguage page ≠ "typescript" ∧
    extractLanguage page ≠ "c++" ∧
    (∀ text, includes text "c#" ∨ includes text "typescript" → includes text "c") ∧
    (∀ text, includes text "c#" → languageOfText text languages ≠ some "c#") ∧
    (∀ text, includes text "typescript" →
      languageOfText text languages ≠ some "typescript") ∧
    (∀ element, page.querySelector "[data-e2e-locator=\"editor-language\"]" = some element →
      toLowerCase element.textContent = "typescript" ∨ toLowerCase element.textContent = "c#" →
      extractLanguage page = "c") := by
  have hmem := extractLanguage_mem page
  have hmemText : ∀ text r, languageOfText text languages = some r → r ≠ "c#" ∧
      r ≠ "typescript" := by
    intro text r hr
    have := languageOfText_mem text r hr
    generalize r = x at this
    simp only [List.mem_cons, List.mem_singleton, List.not_mem_nil, or_false] at this
    rcases this with rfl | rfl | rfl | rfl | rfl | rfl | rfl | rfl <;> decide
  refine ⟨hmem, ?_, ?_, ?_, ?_, ?_, ?_, ?_⟩
  · intro heq
    rw [heq] at hmem
    revert hmem
    decide
  · intro heq
    rw [heq] at hmem
    revert hmem
    decide
  · intro heq
    rw [heq] at hmem
    revert hmem
    decide
  · intro text htext
    rcases htext with htext | htext
    · exact includes_of_includes text "c#" "c" (by decide) htext
    · exact includes_of_includes text "typescript" "c" (by decide) htext
  · intro text _ hr
    exact (hmemText text _ hr).1 rfl
  · intro text _ hr
    exact (hmemText text _ hr).2 rfl
  · intro element hq htext
    have hc : languageOfText (toLowerCase element.textContent) languages = some "c" := by
      rcases htext with htext | htext <;> rw [htext] <;>
        exact languageOfText_c _ (by decide) (by decide) (by decide) (by decide) (by decide)
          (by decide)
    unfold extractLanguage
    simp only [List.findSome?, hq, hc]

/-- C20, at the accepted page whose language element reads `TypeScript`, and
at the one that reads `C#`: both are reported as `c`. -/
theorem extractLanguage_values_witness :
    includes "typescript" "typescript" ∧ includes "typescript" "c" ∧
    extractLanguage (acceptedPage "two-sum" "TypeScript") = "c" ∧
    extractLanguage (acceptedPage "two-sum" "C#") = "c" :=
  ⟨by decide,
    (extractLanguage_values (acceptedPage "two-sum" "TypeScript")).2.2.2.2.1 "typescript"
      (Or.inr (by decide)),
    (extractLanguage_values (acceptedPage "two-sum" "TypeScript")).2.2.2.2.2.2.2
      { textContent := "TypeScript", className := .string "" } (by decide) (Or.inl (by decide)),
    (extractLanguage_values (acceptedPage "two-sum" "C#")).2.2.2.2.2.2.2
      { textContent := "C#", className := .string "" } (by decide) (Or.inr (by decide))⟩

/-! ## The dedup of the monitor -/

/-- One check on a page from which a submission is extracted: nothing when its
key is the last one, otherwise the key is recorded, the notification shown and
the sync scheduled. -/
theorem checkCurrentSubmission_of_some (h : Host) (page : Page) (monitor : Monitor)
    (s : SubmissionData) (hs : extractSubmissionData h page = some s) :
    checkCurrentSubmission h page monitor =
      if some (generateSubmissionId s) = monitor.lastSubmissionId then (monitor, [])
      else
        ({ monitor with lastSubmissionId := some (generateSubmissionId s) },
          [.notification "Solution Accepted! Syncing to GitHub..." "success",
           .scheduleSync 1000 s]) := by
  have hacc := (extractSubmissionData_some h page s hs).2.2.2.2.2.2.2.2
  unfold checkCurrentSubmission
  rw [hs]
  simp [hacc]

theorem checkCurrentSubmission_of_none (h : Host) (page : Page) (monitor : Monitor)
    (hs : extractSubmissionData h page = none) :
    checkCurrentSubmission h page monitor = (monitor, []) := by
  unfold checkCurrentSubmission
  rw [hs]

/-- After a check on a page from which a submission is extracted, the last key
of the monitor is the key of that submission. -/
theorem checkCurrentSubmission_last (h : Host) (page : Page) (monitor : Monitor)
    (s : SubmissionData) (hs : extractSubmissionData h page = some s) :
    (checkCurrentSubmission h page monitor).1.lastSubmissionId =
      some (generateSubmissionId s) := by
  rw [checkCurrentSubmission_of_some h page monitor s hs]
  by_cases hlast : some (generateSubmissionId s) = monitor.lastSubmissionId
  · rw [if_pos hlast]
    exact hlast.symm
  · rw [if_neg hlast]

theorem append_hyphen_injective (a b x y : List Char) (hx : '-' ∉ x) (hy : '-' ∉ y)
    (heq : a ++ '-' :: x = b ++ '-' :: y) : a = b ∧ x = y := by
  induction a generalizing b with
  | nil =>
    cases b with
    | nil =>
      simp only [List.nil_append, List.cons.injEq, true_and] at heq
      exact ⟨rfl, heq⟩
    | cons c b =>
      simp only [List.nil_append, List.cons_append, List.cons.injEq] at heq
      exact absurd (heq.2 ▸ List.mem_append_right b (List.mem_cons_self _ _)) hx
  | cons c a ih =>
    cases b with
    | nil =>
      simp only [List.nil_append, List.cons_append, List.cons.injEq] at heq
      exact absurd (heq.2 ▸ List.mem_append_right a (List.mem_cons_self _ _)) hy
    | cons d b =>
      simp only [List.cons_append, List.cons.injEq] at heq
      obtain ⟨hab, hxy⟩ := ih b heq.2
      exact ⟨by rw [heq.1, hab], hxy⟩

/-- Two submissions whose languages have no hyphen have the same key only when
they have the same slug and the same language. -/
theorem generateSubmissionId_injective (s1 s2 : SubmissionData)
    (h1 : '-' ∉ s1.language.data) (h2 : '-' ∉ s2.language.data)
    (hkey : generateSubmissionId s1 = generateSubmissionId s2) :
    s1.slug = s2.slug ∧ s1.language = s2.language := by
  have hdata := congrArg String.data hkey
  simp only [generateSubmissionId, String.data_append, List.append_assoc] at hdata
  have hsplit := append_hyphen_injective s1.slug.data s2.slug.data s1.language.data
    s2.language.data h1 h2 hdata
  exact ⟨String.ext hsplit.1, String.ext hsplit.2⟩

/-- C11: for every monitor state, when two consecutive accepted detections
have the same slug and the same language, the second check changes nothing in
the monitor, so `lastSubmissionId` stays, and does nothing: no notification,
no sync; the two checks together schedule at most one sync. -/
theorem checkCurrentSubmission_same_key (h1 h2 : Host) (page1 page2 : Page) (monitor : Monitor)
    (s1 s2 : SubmissionData)
    (hfirst : extractSubmissionData h1 page1 = some s1)
    (hsecond : extractSubmissionData h2 page2 = some s2)
    (hslug : s1.slug = s2.slug) (hlang : s1.language = s2.language) :
    checkCurrentSubmission h2 page2 (checkCurrentSubmission h1 page1 monitor).1 =
      ((checkCurrentSubmission h1 page1 monitor).1, []) ∧
    (scheduledSyncs ((checkCurrentSubmission h1 page1 monitor).2 ++
      (checkCurrentSubmission h2 page2 (checkCurrentSubmission h1 page1 monitor).1).2)).length
      ≤ 1 := by
  have hkey : generateSubmissionId s2 = generateSubmissionId s1 := by
    simp [generateSubmissionId, hslug, hlang]
  have hlast := checkCurrentSubmission_last h1 page1 monitor s1 hfirst
  have hcheck : checkCurrentSubmission h2 page2 (checkCurrentSubmission h1 page1 monitor).1 =
      ((checkCurrentSubmission h1 page1 monitor).1, []) := by
    rw [checkCurrentSubmission_of_some h2 page2 _ s2 hsecond, hlast, hkey]
    simp
  refine ⟨hcheck, ?_⟩
  rw [hcheck, checkCurrentSubmission_of_some h1 page1 monitor s1 hfirst]
  by_cases hl : some (generateSubmissionId s1) = monitor.lastSubmissionId
  · rw [if_pos hl]
    simp [scheduledSyncs]
  · rw [if_neg hl]
    simp [scheduledSyncs]

/-- C11, at the accepted page of `two-sum` checked twice by a fresh monitor:
the first check schedules the sync, the second does nothing. -/
theorem checkCurrentSubmission_same_key_witness :
    (extractSubmissionData exampleHost (acceptedPage "two-sum" "Python3")).isSome = true ∧
    (scheduledSyncs (checkCurrentSubmission exampleHost (acceptedPage "two-sum" "Python3")
      freshMonitor).2).length = 1 ∧
    (checkCurrentSubmission exampleHost (acceptedPage "two-sum" "Python3")
      (checkCurrentSubmission exampleHost (acceptedPage "two-sum" "Python3") freshMonitor).1).2
      = [] := by
  cases hs : extractSubmissionData exampleHost (acceptedPage "two-sum" "Python3") with
  | none => exact absurd hs (by decide)
  | some s =>
    exact ⟨rfl, by decide,
      congrArg Prod.snd (checkCurrentSubmission_same_key exampleHost exampleHost
        (acceptedPage "two-sum" "Python3") (acceptedPage "two-sum" "Python3") freshMonitor
        s s hs hs rfl rfl).1⟩

/-- C12: for every two consecutive accepted detections that differ in the slug
or in the language, the second check records the new key, shows the
notification and schedules the sync of the second submission; the keys of two
extracted submissions are equal only when both components are. -/
theorem checkCurrentSubmission_new_key (h1 h2 : Host) (page1 page2 : Page) (monitor : Monitor)
    (s1 s2 : SubmissionData)
    (hfirst : extractSubmissionData h1 page1 = some s1)
    (hsecond : extractSubmissionData h2 page2 = some s2)
    (hdiff : s1.slug ≠ s2.slug ∨ s1.language ≠ s2.language) :
    generateSubmissionId s1 ≠ generateSubmissionId s2 ∧
    scheduledSyncs
      (checkCurrentSubmission h2 page2 (checkCurrentSubmission h1 page1 monitor).1).2 = [s2] ∧
    (checkCurrentSubmission h2 page2
      (checkCurrentSubmission h1 page1 monitor).1).1.lastSubmissionId =
      some (generateSubmissionId s2) := by
  have hne : generateSubmissionId s1 ≠ generateSubmissionId s2 := by
    intro hkey
    have hinj := generateSubmissionId_injective s1 s2
      (extractSubmissionData_language h1 page1 s1 hfirst)
      (extractSubmissionData_language h2 page2 s2 hsecond) hkey
    rcases hdiff with hd | hd
    · exact hd hinj.1
    · exact hd hinj.2
  have hlast := checkCurrentSubmission_last h1 page1 monitor s1 hfirst
  refine ⟨hne, ?_, checkCurrentSubmission_last h2 page2 _ s2 hsecond⟩
  rw [checkCurrentSubmission_of_some h2 page2 _ s2 hsecond, hlast]
  have hne' : ¬ some (generateSubmissionId s2) = some (generateSubmissionId s1) := by
    intro hc
    injection hc with hc
    exact hne hc.symm
  rw [if_neg hne']
  simp [scheduledSyncs]

/-- C12, at the accepted page of `two-sum` in Python followed by the same
problem in Java: the second check schedules a sync. -/
theorem checkCurrentSubmission_new_key_witness :
    (extractSubmissionData exampleHost (acceptedPage "two-sum" "Python3")).isSome = true ∧
    (extractSubmissionData exampleHost (acceptedPage "two-sum" "Java")).isSome = true ∧
    (scheduledSyncs (checkCurrentSubmission exampleHost (acceptedPage "two-sum" "Java")
      (checkCurrentSubmission exampleHost (acceptedPage "two-sum" "Python3")
        freshMonitor).1).2).length = 1 := by
  cases hs1 : extractSubmissionData exampleHost (acceptedPage "two-sum" "Python3") with
  | none => exact absurd hs1 (by decide)
  | some s1 =>
    cases hs2 : extractSubmissionData exampleHost (acceptedPage "two-sum" "Java") with
    | none => exact absurd hs2 (by decide)
    | some s2 =>
      have hlang : s1.language ≠ s2.language := by
        have e1 := (extractSubmissionData_some _ _ s1 hs1).2.2.2.1
        have e2 := (extractSubmissionData_some _ _ s2 hs2).2.2.2.1
        rw [e1, e2]
        decide
      exact ⟨rfl, rfl, by
        rw [(checkCurrentSubmission_new_key exampleHost exampleHost
          (acceptedPage "two-sum" "Python3") (acceptedPage "two-sum" "Java") freshMonitor
          s1 s2 hs1 hs2 (Or.inr hlang)).2.1]
        rfl⟩

theorem scheduledSyncs_append (a b : List Effect) :
    scheduledSyncs (a ++ b) = scheduledSyncs a ++ scheduledSyncs b := by
  simp [scheduledSyncs, List.filterMap_append]

theorem checkAll_cons (h : Host) (monitor : Monitor) (page : Page) (rest : List Page) :
    checkAll h monitor (page :: rest) =
      ((checkAll h (checkCurrentSubmission h page monitor).1 rest).1,
        (checkCurrentSubmission h page monitor).2 ++
          (checkAll h (checkCurrentSubmission h page monitor).1 rest).2) := rfl

/-- The syncs scheduled by a monitor whose last key is that of `a`: together
with `a` in front, the detections with every run of equal keys collapsed. -/
theorem scheduledSyncs_checkAll_from (h : Host) (pages : List Page) :
    ∀ (monitor : Monitor) (a : SubmissionData),
      monitor.lastSubmissionId = some (generateSubmissionId a) →
      a :: scheduledSyncs (checkAll h monitor pages).2 =
        List.destutter' (fun x y => generateSubmissionId x ≠ generateSubmissionId y) a
          (pages.filterMap (extractSubmissionData h)) := by
  induction pages with
  | nil =>
    intro monitor a _
    simp [checkAll, scheduledSyncs]
  | cons page rest ih =>
    intro monitor a hlast
    rw [checkAll_cons, scheduledSyncs_append]
    cases hs : extractSubmissionData h page with
    | none =>
      rw [checkCurrentSubmission_of_none h page monitor hs]
      simp only [List.filterMap_cons, hs]
      simpa [scheduledSyncs] using ih monitor a hlast
    | some s =>
      rw [checkCurrentSubmission_of_some h page monitor s hs]
      simp only [List.filterMap_cons, hs, List.destutter'_cons]
      by_cases hkey : generateSubmissionId a = generateSubmissionId s
      · have hl : some (generateSubmissionId s) = monitor.lastSubmissionId := by
          rw [hlast, hkey]
        rw [if_pos hl, if_neg (not_not.mpr hkey)]
        simpa [scheduledSyncs] using ih monitor a hlast
      · have hl : ¬ some (generateSubmissionId s) = monitor.lastSubmissionId := by
          rw [hlast]
          intro hc
          injection hc with hc
          exact hkey hc.symm
        rw [if_neg hl, if_pos hkey]
        have := ih { monitor with lastSubmissionId := some (generateSubmissionId s) } s rfl
        simpa [scheduledSyncs] using this

/-- The syncs scheduled by a monitor that has no last key yet: the detections
with every run of equal keys collapsed to its first detection. -/
theorem scheduledSyncs_checkAll (h : Host) (pages : List Page) :
    ∀ (monitor : Monitor), monitor.lastSubmissionId = none →
      scheduledSyncs (checkAll h monitor pages).2 =
        List.destutter (fun x y => generateSubmissionId x ≠ generateSubmissionId y)
          (pages.filterMap (extractSubmissionData h)) := by
  induction pages with
  | nil =>
    intro monitor _
    simp [checkAll, scheduledSyncs]
  | cons page rest ih =>
    intro monitor hlast
    rw [checkAll_cons, scheduledSyncs_append]
    cases hs : extractSubmissionData h page with
    | none =>
      rw [checkCurrentSubmission_of_none h page monitor hs]
      simp only [List.filterMap_cons, hs]
      simpa [scheduledSyncs] using ih monitor hlast
    | some s =>
      rw [checkCurrentSubmission_of_some h page monitor s hs]
      have hl : ¬ some (generateSubmissionId s) = monitor.lastSubmissionId := by
        rw [hlast]
        exact fun hc => Option.noConfusion hc
      rw [if_neg hl]
      simp only [List.filterMap_cons, hs, List.destutter_cons']
      have := scheduledSyncs_checkAll_from h rest
        { monitor with lastSubmissionId := some (generateSubmissionId s) } s rfl
      simpa [scheduledSyncs] using this

/-- C13, as stated, fails on three accepted detections: `two-sum`, then
`add-two-numbers`, then `two-sum` again, all in Python. A fresh monitor
schedules three syncs, two of them for the pair of `two-sum` and `python`. -/
theorem checkAll_resyncs_pair :
    (scheduledSyncs (checkAll exampleHost freshMonitor
      [acceptedPage "two-sum" "Python3", acceptedPage "add-two-numbers" "Python3",
       acceptedPage "two-sum" "Python3"]).2).map (fun s => (s.slug, s.language)) =
      [("two-sum", "python"), ("add-two-numbers", "python"), ("two-sum", "python")] ∧
    ((scheduledSyncs (checkAll exampleHost freshMonitor
      [acceptedPage "two-sum" "Python3", acceptedPage "add-two-numbers" "Python3",
       acceptedPage "two-sum" "Python3"]).2).map (fun s => (s.slug, s.language))).count
      ("two-sum", "python") = 2 := by
  decide

/-- C13, amended: within one session, for every sequence of pages checked by a
monitor that starts with no last key, the syncs scheduled are the accepted
detections with every run of consecutive detections of the same key collapsed
to its first one. No two consecutive syncs have the same slug and language,
and on the detections the key is the same exactly when the slug and the
language are. -/
theorem checkAll_syncs_per_run (h : Host) (monitor : Monitor) (pages : List Page)
    (hfresh : monitor.lastSubmissionId = none) :
    scheduledSyncs (checkAll h monitor pages).2 =
      List.destutter (fun x y => generateSubmissionId x ≠ generateSubmissionId y)
        (pages.filterMap (extractSubmissionData h)) ∧
    List.Chain' (fun x y => ¬ (x.slug = y.slug ∧ x.language = y.language))
      (scheduledSyncs (checkAll h monitor pages).2) ∧
    (∀ x ∈ pages.filterMap (extractSubmissionData h),
      ∀ y ∈ pages.filterMap (extractSubmissionData h),
        (generateSubmissionId x = generateSubmissionId y ↔
          x.slug = y.slug ∧ x.language = y.language)) := by
  have hsyncs := scheduledSyncs_checkAll h pages monitor hfresh
  refine ⟨hsyncs, ?_, ?_⟩
  · rw [hsyncs]
    refine List.Chain'.imp ?_ (List.destutter_is_chain' _ _)
    intro x y hne hpair
    exact hne (by simp [generateSubmissionId, hpair.1, hpair.2])
  · intro x hx y hy
    obtain ⟨px, _, hpx⟩ := List.mem_filterMap.mp hx
    obtain ⟨py, _, hpy⟩ := List.mem_filterMap.mp hy
    constructor
    · exact generateSubmissionId_injective x y (extractSubmissionData_language h px x hpx)
        (extractSubmissionData_language h py y hpy)
    · intro hpair
      simp [generateSubmissionId, hpair.1, hpair.2]

/-- C13 amended, at two checks of the accepted page of `two-sum` followed by
one of `add-two-numbers`: two syncs are scheduled, one per run. -/
theorem checkAll_syncs_per_run_witness :
    freshMonitor.lastSubmissionId = none ∧
    (scheduledSyncs (checkAll exampleHost freshMonitor
      [acceptedPage "two-sum" "Python3", acceptedPage "two-sum" "Python3",
       acceptedPage "add-two-numbers" "Python3"]).2).map (fun s => s.slug) =
      ["two-sum", "add-two-numbers"] :=
  ⟨rfl, (congrArg (List.map fun s => s.slug)
    (checkAll_syncs_per_run exampleHost freshMonitor
      [acceptedPage "two-sum" "Python3", acceptedPage "two-sum" "Python3",
       acceptedPage "add-two-numbers" "Python3"] rfl).1).trans (by decide)⟩

/-- C16: for every value of `lastSubmissionId`, `handleManualSync` calls
`syncToGitHub` with the extracted submission whenever extraction returns one,
after the notification `Manually syncing to GitHub...`; with the runtime
available that sends the message `syncSolution` carrying the submission, also
when its key is the last key. When extraction returns `null` it shows the
warning `No accepted solution found to sync` and sends nothing. In both cases
the monitor, and so `lastSubmissionId`, is unchanged. -/
theorem handleManualSync_bypasses_dedup (h : Host) (page : Page) (runtime : Option Channel)
    (monitor : Monitor) :
    (∀ s, extractSubmissionData h page = some s →
      (handleManualSync h page runtime monitor).2 =
        .notification "Manually syncing to GitHub..." "success" ::
          syncToGitHub runtime monitor s ∧
      (∀ channel, runtime = some channel →
        sentMessages (handleManualSync h page runtime monitor).2 =
          [{ action := some "syncSolution", data := some s }])) ∧
    (extractSubmissionData h page = none →
      (handleManualSync h page runtime monitor).2 =
        [.notification "No accepted solution found to sync" "warning"] ∧
      sentMessages (handleManualSync h page runtime monitor).2 = []) ∧
    (handleManualSync h page runtime monitor).1 = monitor := by
  refine ⟨?_, ?_, ?_⟩
  · intro s hs
    unfold handleManualSync
    rw [hs]
    refine ⟨rfl, ?_⟩
    intro channel hch
    subst hch
    simp only [syncToGitHub]
    cases hsend : channel { action := some "syncSolution", data := some s } with
    | error e => simp [sentMessages]
    | ok response =>
      simp only []
      split_ifs <;> simp [sentMessages]
  · intro hs
    unfold handleManualSync
    rw [hs]
    exact ⟨rfl, rfl⟩
  · unfold handleManualSync
    cases extractSubmissionData h page <;> rfl

/-- C16, at a monitor whose last key is the key of the accepted page: the
automatic check does nothing, the manual sync sends the message. -/
theorem handleManualSync_bypasses_dedup_witness :
    (checkCurrentSubmission exampleHost (acceptedPage "two-sum" "Python3")
      { lastSubmissionId := some "two-sum-python", syncButton := true }).2 = [] ∧
    (sentMessages (handleManualSync exampleHost (acceptedPage "two-sum" "Python3")
      (some acceptingChannel)
      { lastSubmissionId := some "two-sum-python", syncButton := true }).2).length = 1 ∧
    (handleManualSync exampleHost (acceptedPage "two-sum" "Python3") (some acceptingChannel)
      { lastSubmissionId := some "two-sum-python", syncButton := true }).1.lastSubmissionId =
      some "two-sum-python" := by
  cases hs : extractSubmissionData exampleHost (acceptedPage "two-sum" "Python3") with
  | none => exact absurd hs (by decide)
  | some s =>
    refine ⟨by decide, ?_, ?_⟩
    · rw [((handleManualSync_bypasses_dedup exampleHost (acceptedPage "two-sum" "Python3")
        (some acceptingChannel)
        { lastSubmissionId := some "two-sum-python", syncButton := true }).1 s hs).2
        acceptingChannel rfl]
      rfl
    · rw [(handleManualSync_bypasses_dedup exampleHost (acceptedPage "two-sum" "Python3")
        (some acceptingChannel)
        { lastSubmissionId := some "two-sum-python", syncButton := true }).2.2]

/-! ## The token check of the popup -/

/-- The format check of line 103, spelled out: at least 20 code units and one
of the five prefixes. -/
theorem tokenFormatValid_iff (token : String) :
    tokenFormatValid token = true ↔
      20 ≤ jsLength token ∧
      (startsWith token "ghp_" ∨ startsWith token "gho_" ∨ startsWith token "ghu_" ∨
        startsWith token "ghs_" ∨ startsWith token "ghr_") := by
  simp [tokenFormatValid, tokenPrefixes]

theorem tokenFormatValid_false (token : String)
    (hinvalid : jsLength token < 20 ∨
      (¬ startsWith token "ghp_" ∧ ¬ startsWith token "gho_" ∧ ¬ startsWith token "ghu_" ∧
        ¬ startsWith token "ghs_" ∧ ¬ startsWith token "ghr_")) :
    tokenFormatValid token = false := by
  cases hvalid : tokenFormatValid token with
  | false => rfl
  | true =>
    obtain ⟨hlen, hstart⟩ := (tokenFormatValid_iff token).mp hvalid
    rcases hinvalid with hshort | ⟨h1, h2, h3, h4, h5⟩
    · omega
    · rcases hstart with hs | hs | hs | hs | hs
      · exact absurd hs h1
      · exact absurd hs h2
      · exact absurd hs h3
      · exact absurd hs h4
      · exact absurd hs h5

/-- C17, as stated, fails at three popups. With an empty token, which is
shorter than 20 characters, `handleValidateToken` reports `Please enter a
GitHub token`; with the token `ghp_short` and an empty user name,
`handleSaveSettings` reports `GitHub username is required`; neither reports
`Invalid token format`. And a token typed with two blanks in front starts with
none of the prefixes, yet it is trimmed first, `validateTokenInput` returns
true and `handleValidateToken` sends the message `validateToken`. -/
theorem invalid_token_other_report :
    (validateTokenInput (examplePopup "" "octocat" "leetcode")).1 = false ∧
    popupTexts (handleValidateToken acceptingChannel
      (examplePopup "" "octocat" "leetcode")).2 = ["Please enter a GitHub token"] ∧
    (validateTokenInput (examplePopup "ghp_short" "" "leetcode")).1 = false ∧
    popupTexts (handleSaveSettings acceptingChannel
      (examplePopup "ghp_short" "" "leetcode")).2 = ["GitHub username is required"] ∧
    (∀ p ∈ tokenPrefixes, ¬ startsWith "  ghp_0123456789abcdefghij" p) ∧
    (validateTokenInput (examplePopup "  ghp_0123456789abcdefghij" "octocat" "leetcode")).1
      = true ∧
    popupMessages (handleValidateToken acceptingChannel
      (examplePopup "  ghp_0123456789abcdefghij" "octocat" "leetcode")).2 =
      [{ action := some "validateToken", token := some "ghp_0123456789abcdefghij" }] := by
  decide

/-- C17, amended: `validateTokenInput` returns true exactly when the token,
once trimmed, has at least 20 UTF-16 code units and starts with one of the
prefixes `ghp_`, `gho_`, `ghu_`, `ghs_` and `ghr_`. For every token that, once
trimmed, is shorter or starts with none of them, `handleValidateToken` and
`handleSaveSettings` send no message to the background service;
`handleValidateToken` reports `Invalid token format` when the trimmed token is
not empty, and `Please enter a GitHub token` when it is; `handleSaveSettings`
reports `Invalid token format` when the popup is not loading and the trimmed
token, user name and repository are not empty. -/
theorem invalid_token_no_message (sendMessage : Channel) (popup : Popup) :
    ((validateTokenInput popup).1 = true ↔
      20 ≤ jsLength (trim popup.githubToken) ∧
      (startsWith (trim popup.githubToken) "ghp_" ∨ startsWith (trim popup.githubToken) "gho_" ∨
        startsWith (trim popup.githubToken) "ghu_" ∨
        startsWith (trim popup.githubToken) "ghs_" ∨
        startsWith (trim popup.githubToken) "ghr_")) ∧
    (jsLength (trim popup.githubToken) < 20 ∨
      (¬ startsWith (trim popup.githubToken) "ghp_" ∧
        ¬ startsWith (trim popup.githubToken) "gho_" ∧
        ¬ startsWith (trim popup.githubToken) "ghu_" ∧
        ¬ startsWith (trim popup.githubToken) "ghs_" ∧
        ¬ startsWith (trim popup.githubToken) "ghr_") →
      (validateTokenInput popup).1 = false ∧
      popupMessages (handleValidateToken sendMessage popup).2 = [] ∧
      popupMessages (handleSaveSettings sendMessage popup).2 = [] ∧
      (trim popup.githubToken ≠ "" →
        popupTexts (handleValidateToken sendMessage popup).2 = ["Invalid token format"]) ∧
      (trim popup.githubToken = "" →
        popupTexts (handleValidateToken sendMessage popup).2 =
          ["Please enter a GitHub token"]) ∧
      (popup.isLoading = false → trim popup.githubToken ≠ "" → trim popup.username ≠ "" →
        trim popup.repository ≠ "" →
        popupTexts (handleSaveSettings sendMessage popup).2 = ["Invalid token format"])) := by
  refine ⟨tokenFormatValid_iff (trim popup.githubToken), ?_⟩
  intro hinvalid
  have hvalid := tokenFormatValid_false _ hinvalid
  have hcheck : (validateTokenInput popup).1 = false := by
    simp [validateTokenInput, hvalid]
  refine ⟨hcheck, ?_, ?_, ?_, ?_, ?_⟩
  · unfold handleValidateToken
    by_cases htoken : trim popup.githubToken = ""
    · simp [htoken, popupMessages]
    · simp [htoken, validateTokenInput, hvalid, popupMessages]
  · unfold handleSaveSettings
    by_cases hload : popup.isLoading = true
    · simp [hload, popupMessages]
    · by_cases htoken : trim popup.githubToken = ""
      · simp [hload, htoken, popupMessages]
      · by_cases huser : trim popup.username = ""
        · simp [hload, htoken, huser, popupMessages]
        · by_cases hrepo : trim popup.repository = ""
          · simp [hload, htoken, huser, hrepo, popupMessages]
          · simp [hload, htoken, huser, hrepo, validateTokenInput, hvalid, popupMessages]
  · intro htoken
    unfold handleValidateToken
    simp [htoken, validateTokenInput, hvalid, popupTexts]
  · intro htoken
    unfold handleValidateToken
    simp [htoken, popupTexts]
  · intro hload htoken huser hrepo
    unfold handleSaveSettings
    simp [hload, htoken, huser, hrepo, validateTokenInput, hvalid, popupTexts]

/-- C17 amended, at three tokens. `not-a-github-token-at-all` is long enough
and has no accepted prefix: both handlers report `Invalid token format` and
send nothing. `ghp_` followed by eight characters outside the Basic
Multilingual Plane has 20 code units and is accepted, and the same prefix
followed by fifteen letters has 19 and is not. -/
theorem invalid_token_no_message_witness :
    (¬ startsWith (trim "not-a-github-token-at-all") "ghp_" ∧
      ¬ startsWith (trim "not-a-github-token-at-all") "gho_" ∧
      ¬ startsWith (trim "not-a-github-token-at-all") "ghu_" ∧
      ¬ startsWith (trim "not-a-github-token-at-all") "ghs_" ∧
      ¬ startsWith (trim "not-a-github-token-at-all") "ghr_") ∧
    popupTexts (handleValidateToken acceptingChannel
      (examplePopup "not-a-github-token-at-all" "octocat" "leetcode")).2 =
      ["Invalid token format"] ∧
    popupTexts (handleSaveSettings acceptingChannel
      (examplePopup "not-a-github-token-at-all" "octocat" "leetcode")).2 =
      ["Invalid token format"] ∧
    popupMessages (handleSaveSettings acceptingChannel
      (examplePopup "not-a-github-token-at-all" "octocat" "leetcode")).2 = [] ∧
    (validateTokenInput (examplePopup "ghp_😀😀😀😀😀😀😀😀" "octocat" "leetcode")).1 = true ∧
    (validateTokenInput (examplePopup "ghp_abcdefghijklmno" "octocat" "leetcode")).1 = false :=
  have hstart : ¬ startsWith (trim "not-a-github-token-at-all") "ghp_" ∧
      ¬ startsWith (trim "not-a-github-token-at-all") "gho_" ∧
      ¬ startsWith (trim "not-a-github-token-at-all") "ghu_" ∧
      ¬ startsWith (trim "not-a-github-token-at-all") "ghs_" ∧
      ¬ startsWith (trim "not-a-github-token-at-all") "ghr_" := by
    decide
  ⟨hstart,
    ((invalid_token_no_message acceptingChannel
      (examplePopup "not-a-github-token-at-all" "octocat" "leetcode")).2
      (Or.inr hstart)).2.2.2.1 (by decide),
    ((invalid_token_no_message acceptingChannel
      (examplePopup "not-a-github-token-at-all" "octocat" "leetcode")).2
      (Or.inr hstart)).2.2.2.2.2 rfl (by decide) (by decide) (by decide),
    ((invalid_token_no_message acceptingChannel
      (examplePopup "not-a-github-token-at-all" "octocat" "leetcode")).2
      (Or.inr hstart)).2.2.1,
    (invalid_token_no_message acceptingChannel
      (examplePopup "ghp_😀😀😀😀😀😀😀😀" "octocat" "leetcode")).1.mpr
      (by decide),
    ((invalid_token_no_message acceptingChannel
      (examplePopup "ghp_abcdefghijklmno" "octocat" "leetcode")).2 (Or.inl (by decide))).1⟩

/-! ## The background listener -/

/-- The responses of the listener, case by case: always one. -/
theorem onMessage_responses (h : Host) (fetch : Request → Response) (stored : Option Settings)
    (request : Message) :
    ∃ r, (onMessage h fetch stored request).2.2 = [r] ∧
      (r.success.isSome = true ∨ r.valid.isSome = true) := by
  unfold onMessage
  split
  · exact ⟨_, rfl, Or.inl rfl⟩
  · refine ⟨_, rfl, Or.inr ?_⟩
    unfold validateToken
    simp only []
    split_ifs
    · rfl
    · split <;> rfl
  · split
    · exact ⟨_, rfl, Or.inl rfl⟩
    · split
      · exact ⟨_, rfl, Or.inl rfl⟩
      · exact ⟨_, rfl, Or.inl rfl⟩
  · exact ⟨_, rfl, Or.inl rfl⟩
  · exact ⟨_, rfl, Or.inl rfl⟩
  · exact ⟨_, rfl, Or.inl rfl⟩

/-- C18: for every request the listener handles, whatever its action and
whether or not the handler throws, exactly one response is sent, and it has a
boolean `success` or a boolean `valid`. An action that is none of the five
gives `success: false` with the error `Unknown action`, and an error thrown by
`syncSolution` gives `success: false` with the message of the error. -/
theorem onMessage_one_response (h : Host) (fetch : Request → Response)
    (stored : Option Settings) (request : Message) :
    (onMessage h fetch stored request).2.2.length = 1 ∧
    (∀ r ∈ (onMessage h fetch stored request).2.2,
      r.success.isSome = true ∨ r.valid.isSome = true) ∧
    (request.action ∉ [some "initializeSettings", some "validateToken", some "syncSolution",
        some "getSettings", some "saveSettings"] →
      (onMessage h fetch stored request).2.2 =
        [{ success := some false, error := some "Unknown action" }]) ∧
    (∀ data requests e, request.action = some "syncSolution" → request.data = some data →
      syncSolution h fetch stored data.toSolutionData = (requests, .error e) →
      (onMessage h fetch stored request).2.2 = [{ success := some false, error := some e }]) ∧
    (request.action = some "syncSolution" → request.data = none →
      (onMessage h fetch stored request).2.2 =
        [{ success := some false, error := some (syncSolutionUndefinedError stored) }]) := by
  obtain ⟨r, hr, hfield⟩ := onMessage_responses h fetch stored request
  refine ⟨by rw [hr]; rfl, ?_, ?_, ?_, ?_⟩
  · intro r' hr'
    rw [hr] at hr'
    rw [List.mem_singleton.mp hr']
    exact hfield
  · intro hunknown
    simp only [List.mem_cons, List.mem_singleton, List.not_mem_nil, or_false, not_or]
      at hunknown
    obtain ⟨h1, h2, h3, h4, h5⟩ := hunknown
    unfold onMessage
    split
    · rename_i heq
      exact absurd heq h1
    · rename_i heq
      exact absurd heq h2
    · rename_i heq
      exact absurd heq h3
    · rename_i heq
      exact absurd heq h4
    · rename_i heq
      exact absurd heq h5
    · rfl
  · intro data requests e haction hdata hsync
    unfold onMessage
    rw [haction]
    simp only [hdata, hsync]
  · intro haction hdata
    unfold onMessage
    rw [haction]
    simp only [hdata]

/-- C18, at three requests: an unknown action, a `syncSolution` that throws
for lack of credentials, and a `validateToken` that the remote refuses. -/
theorem onMessage_one_response_witness :
    (onMessage exampleHost remotePresent (some exampleSettings)
      { action := some "resetEverything" }).2.2 =
      [{ success := some false, error := some "Unknown action" }] ∧
    (onMessage exampleHost remotePresent (some defaultSettings)
      { action := some "syncSolution"
        data := some { exampleSolution with isAccepted := true } }).2.2 =
      [{ success := some false, error := some "GitHub credentials not configured" }] ∧
    (onMessage exampleHost remoteForbidden (some exampleSettings)
      { action := some "validateToken", token := some "ghp_0123456789abcdefghij" }).2.2 =
      [{ valid := some false, error := some "Token validation failed: 403" }] :=
  ⟨(onMessage_one_response exampleHost remotePresent (some exampleSettings)
      { action := some "resetEverything" }).2.2.1 (by decide),
    (onMessage_one_response exampleHost remotePresent (some defaultSettings)
      { action := some "syncSolution"
        data := some { exampleSolution with isAccepted := true } }).2.2.2.1
      { exampleSolution with isAccepted := true } [] "GitHub credentials not configured"
      rfl rfl rfl,
    by decide⟩

/-- C19: `initializeSettings` stores the default record, with empty token, user
name and repository, the layout `difficulty` and `autoSync` on, when nothing is
stored, and leaves a stored record as it is; so it changes the store exactly
when nothing is stored, running it twice gives the store of running it once,
and the message `initializeSettings` does this to the store. -/
theorem initializeSettings_seeds (stored : Option Settings) :
    initializeSettings none =
      some { githubToken := some "", username := some "", repository := some ""
             folderStructure := some "difficulty", autoSync := true } ∧
    (∀ settings, initializeSettings (some settings) = some settings) ∧
    (initializeSettings stored ≠ stored ↔ stored = none) ∧
    initializeSettings (initializeSettings stored) = initializeSettings stored ∧
    (∀ (h : Host) (fetch : Request → Response) (request : Message),
      request.action = some "initializeSettings" →
      (onMessage h fetch stored request).1 = initializeSettings stored) := by
  refine ⟨rfl, fun _ => rfl, ?_, ?_, ?_⟩
  · cases stored with
    | none => simp [initializeSettings]
    | some settings => simp [initializeSettings]
  · cases stored <;> rfl
  · intro h fetch request haction
    unfold onMessage
    rw [haction]
    rfl

/-- C19, at the two kinds of store: the empty store gets the default record
through the message `initializeSettings`, a stored record stays. -/
theorem initializeSettings_seeds_witness :
    (onMessage exampleHost remotePresent none { action := some "initializeSettings" }).1 =
      some defaultSettings ∧
    initializeSettings (some exampleSettings) = some exampleSettings :=
  ⟨(initializeSettings_seeds none).2.2.2.2 exampleHost remotePresent
      { action := some "initializeSettings" } rfl,
    (initializeSettings_seeds (some exampleSettings)).2.1 exampleSettings⟩

/-! ## The setting `autoSync` -/

/-- The effects of `syncToGitHub` depend on the channel through its answer to
the one message it sends. -/
theorem syncToGitHub_congr (channel1 channel2 : Channel) (monitor : Monitor)
    (s : SubmissionData)
    (hsame : channel1 { action := some "syncSolution", data := some s } =
      channel2 { action := some "syncSolution", data := some s }) :
    syncToGitHub (some channel1) monitor s = syncToGitHub (some channel2) monitor s := by
  simp only [syncToGitHub, hsame]

/-- Two settings records that agree on every field but `autoSync` give the
same run of `syncSolution`. -/
theorem syncSolution_autoSync (h : Host) (fetch : Request → Response)
    (settings1 settings2 : Settings) (solutionData : SolutionData)
    (htoken : settings1.githubToken = settings2.githubToken)
    (huser : settings1.username = settings2.username)
    (hrepo : settings1.repository = settings2.repository)
    (hfolder : settings1.folderStructure = settings2.folderStructure) :
    syncSolution h fetch (some settings1) solutionData =
      syncSolution h fetch (some settings2) solutionData := by
  obtain ⟨t1, u1, r1, f1, a1⟩ := settings1
  obtain ⟨t2, u2, r2, f2, a2⟩ := settings2
  simp only at htoken huser hrepo hfolder
  subst htoken huser hrepo hfolder
  rfl

/-- C21: the setting `autoSync` has no effect on syncing. For any two settings
records that agree on every other field, `syncSolution` computes the same
path, issues the same requests (so the same content and commit message) and
gives the same result; the listener answers the message `syncSolution` alike;
and `checkCurrentSubmission`, which reads no setting, followed by the sync it
scheduled, leaves the same monitor and does the same things. -/
theorem autoSync_no_effect (h : Host) (fetch : Request → Response)
    (settings1 settings2 : Settings) (solutionData : SolutionData) (page : Page)
    (monitor : Monitor)
    (htoken : settings1.githubToken = settings2.githubToken)
    (huser : settings1.username = settings2.username)
    (hrepo : settings1.repository = settings2.repository)
    (hfolder : settings1.folderStructure = settings2.folderStructure) :
    syncFilePath settings1 solutionData = syncFilePath settings2 solutionData ∧
    (∀ existingSHA, writeRequest h settings1 solutionData existingSHA =
      writeRequest h settings2 solutionData existingSHA) ∧
    syncSolution h fetch (some settings1) solutionData =
      syncSolution h fetch (some settings2) solutionData ∧
    (∀ data, (onMessage h fetch (some settings1)
        { action := some "syncSolution", data := some data }).2 =
      (onMessage h fetch (some settings2)
        { action := some "syncSolution", data := some data }).2) ∧
    checkAndSync h (some (backgroundChannel h fetch (some settings1))) page monitor =
      checkAndSync h (some (backgroundChannel h fetch (some settings2))) page monitor := by
  have hsync := fun sol => syncSolution_autoSync h fetch settings1 settings2 sol htoken huser
    hrepo hfolder
  have hlisten : ∀ data, (onMessage h fetch (some settings1)
        { action := some "syncSolution", data := some data }).2 =
      (onMessage h fetch (some settings2)
        { action := some "syncSolution", data := some data }).2 := by
    intro data
    simp only [onMessage, hsync data.toSolutionData]
    split <;> rfl
  refine ⟨?_, ?_, hsync solutionData, hlisten, ?_⟩
  · simp only [syncFilePath, hfolder]
  · intro existingSHA
    simp only [writeRequest, syncFilePath, htoken, huser, hrepo, hfolder]
  · have hmap : ∀ (m : Monitor) (l : List SubmissionData),
        l.map (syncToGitHub (some (backgroundChannel h fetch (some settings1))) m) =
        l.map (syncToGitHub (some (backgroundChannel h fetch (some settings2))) m) := by
      intro m l
      apply List.map_congr_left
      intro s _
      apply syncToGitHub_congr
      simp only [backgroundChannel, hlisten s]
    simp only [checkAndSync, hmap]

/-- C21, at the example settings with `autoSync` on and off: the same run of
`syncSolution` on the remote without the file. -/
theorem autoSync_no_effect_witness :
    exampleSettings.autoSync ≠ ({ exampleSettings with autoSync := false } : Settings).autoSync ∧
    syncSolution exampleHost remoteAbsent (some exampleSettings) exampleSolution =
      syncSolution exampleHost remoteAbsent (some { exampleSettings with autoSync := false })
        exampleSolution ∧
    (syncSolution exampleHost remoteAbsent (some exampleSettings) exampleSolution).1.length
      = 2 :=
  ⟨by decide,
    (autoSync_no_effect exampleHost remoteAbsent exampleSettings
      { exampleSettings with autoSync := false } exampleSolution
      (acceptedPage "two-sum" "Python3") freshMonitor rfl rfl rfl rfl).2.2.1,
    by decide⟩

/-! ## A failed sync -/

/-- Checks on pages whose detections all have the last key of the monitor
change nothing and do nothing. -/
theorem checkAll_same_key (h : Host) (key : String) (later : List Page) :
    ∀ (monitor : Monitor), monitor.lastSubmissionId = some key →
      (∀ p ∈ later, ∀ s, extractSubmissionData h p = some s → generateSubmissionId s = key) →
      checkAll h monitor later = (monitor, []) := by
  induction later with
  | nil =>
    intro monitor _ _
    rfl
  | cons page rest ih =>
    intro monitor hlast hkeys
    have hstep : checkCurrentSubmission h page monitor = (monitor, []) := by
      cases hs : extractSubmissionData h page with
      | none => exact checkCurrentSubmission_of_none h page monitor hs
      | some s =>
        rw [checkCurrentSubmission_of_some h page monitor s hs,
          hkeys page (List.mem_cons_self _ _) s hs, hlast]
        simp
    rw [checkAll_cons, hstep]
    simp only [List.nil_append]
    exact ih monitor hlast fun p hp => hkeys p (List.mem_cons_of_mem _ hp)

/-- The sync that a check scheduled changes no field of the monitor. -/
theorem checkAndSync_monitor (h : Host) (runtime : Option Channel) (page : Page)
    (monitor : Monitor) :
    (checkAndSync h runtime page monitor).1 = (checkCurrentSubmission h page monitor).1 := rfl

/-- C22, as stated, fails on three accepted detections when the credentials
are not configured. The sync of `two-sum` fails and only `Sync failed: GitHub
credentials not configured` is shown, with the key recorded; after a
detection of `add-two-numbers`, a later detection of `two-sum` in the same
language schedules a further sync. -/
theorem failed_sync_retried_after_other :
    notifications (checkAndSync exampleHost
      (some (backgroundChannel exampleHost remotePresent (some defaultSettings)))
      (acceptedPage "two-sum" "Python3") freshMonitor).2 =
      ["Solution Accepted! Syncing to GitHub...",
       "Sync failed: GitHub credentials not configured"] ∧
    (checkAndSync exampleHost
      (some (backgroundChannel exampleHost remotePresent (some defaultSettings)))
      (acceptedPage "two-sum" "Python3") freshMonitor).1.lastSubmissionId =
      some "two-sum-python" ∧
    (scheduledSyncs (checkAll exampleHost
      (checkAndSync exampleHost
        (some (backgroundChannel exampleHost remotePresent (some defaultSettings)))
        (acceptedPage "two-sum" "Python3") freshMonitor).1
      [acceptedPage "add-two-numbers" "Python3", acceptedPage "two-sum" "Python3"]).2).map
      (fun s => (s.slug, s.language)) =
      [("add-two-numbers", "python"), ("two-sum", "python")] := by
  decide

/-- C22, amended: `checkCurrentSubmission` records the dedup key at detection
time, in the call that schedules the sync, and the sync changes no field of
the monitor whatever its outcome. When the sync fails, because sending is
rejected or the response has no `success`, `syncToGitHub` only shows `Sync
failed:` with the message. So `lastSubmissionId` stays set to that key, and
later automatic checks trigger nothing, no notification and no sync attempt,
as long as every accepted detection among them has the same slug and
language. -/
theorem failed_sync_not_retried (h1 h : Host) (runtime : Option Channel) (page : Page)
    (monitor : Monitor) (s : SubmissionData) (later : List Page)
    (hs : extractSubmissionData h1 page = some s)
    (hlater : ∀ p ∈ later, ∀ s', extractSubmissionData h p = some s' →
      s'.slug = s.slug ∧ s'.language = s.language) :
    (checkCurrentSubmission h1 page monitor).1.lastSubmissionId =
      some (generateSubmissionId s) ∧
    (checkAndSync h1 runtime page monitor).1.lastSubmissionId =
      some (generateSubmissionId s) ∧
    (∀ (channel : Channel) (m : Monitor) (e : String),
      channel { action := some "syncSolution", data := some s } = .error e →
      syncToGitHub (some channel) m s =
        [.sendMessage { action := some "syncSolution", data := some s },
         .notification ("Sync failed: " ++ e) "error"]) ∧
    (∀ (channel : Channel) (m : Monitor) (r : MessageResponse) (e : String),
      channel { action := some "syncSolution", data := some s } = .ok (some r) →
      r.success ≠ some true → r.error = some e → e ≠ "" →
      syncToGitHub (some channel) m s =
        [.sendMessage { action := some "syncSolution", data := some s },
         .notification ("Sync failed: " ++ e) "error"]) ∧
    checkAll h (checkAndSync h1 runtime page monitor).1 later =
      ((checkAndSync h1 runtime page monitor).1, []) := by
  have hlast := checkCurrentSubmission_last h1 page monitor s hs
  refine ⟨hlast, ?_, ?_, ?_, ?_⟩
  · rw [checkAndSync_monitor]
    exact hlast
  · intro channel m e hsend
    simp only [syncToGitHub, hsend]
  · intro channel m r e hsend hsuccess herror hne
    simp only [syncToGitHub, hsend, Option.bind, herror]
    rw [if_neg hsuccess]
    simp [truthy, hne]
  · apply checkAll_same_key h (generateSubmissionId s)
    · rw [checkAndSync_monitor]
      exact hlast
    · intro p hp s' hs'
      obtain ⟨hslug, hlang⟩ := hlater p hp s' hs'
      simp [generateSubmissionId, hslug, hlang]

/-- C22 amended, at the accepted page of `two-sum` with credentials that are
not configured: the sync fails, and two later checks of the same page do
nothing. -/
theorem failed_sync_not_retried_witness :
    (extractSubmissionData exampleHost (acceptedPage "two-sum" "Python3")).isSome = true ∧
    notifications (checkAndSync exampleHost
      (some (backgroundChannel exampleHost remotePresent (some defaultSettings)))
      (acceptedPage "two-sum" "Python3") freshMonitor).2 =
      ["Solution Accepted! Syncing to GitHub...",
       "Sync failed: GitHub credentials not configured"] ∧
    (checkAll exampleHost
      (checkAndSync exampleHost
        (some (backgroundChannel exampleHost remotePresent (some defaultSettings)))
        (acceptedPage "two-sum" "Python3") freshMonitor).1
      [acceptedPage "two-sum" "Python3", acceptedPage "two-sum" "Python3"]).2 = [] := by
  cases hs : extractSubmissionData exampleHost (acceptedPage "two-sum" "Python3") with
  | none => exact absurd hs (by decide)
  | some s =>
    refine ⟨rfl, by decide, ?_⟩
    rw [(failed_sync_not_retried exampleHost exampleHost
      (some (backgroundChannel exampleHost remotePresent (some defaultSettings)))
      (acceptedPage "two-sum" "Python3") freshMonitor s
      [acceptedPage "two-sum" "Python3", acceptedPage "two-sum" "Python3"] hs ?_).2.2.2.2]
    intro p hp s' hs'
    simp only [List.mem_cons, List.mem_singleton, List.not_mem_nil, or_false, or_self] at hp
    subst hp
    rw [hs] at hs'
    injection hs' with hs'
    subst hs'
    exact ⟨rfl, rfl⟩

end GitLeetSync
